import Mathlib

/-!
# Verification of the EBIOS Risk Manager calculator engine

A shallow embedding of the risk-assessment computation engine
(`modules/risk_calculator.py`, `modules/workshop1.py` … `modules/workshop5.py`)
together with theorems settling the specification claims about it.

Conventions of the embedding:
* Python `int` values become `ℤ`; Python `float` values become `ℚ`
  (exact arithmetic; `round` is modelled as round-half-to-even, which is
  Python 3 semantics).
* A Python function that can raise returns an `Option`: `none` models the
  exception; since every `raise` in the modelled code happens before any
  mutation, `none` also means the state is unchanged.
* Timestamp fields (`date_…`) are omitted: they carry no logic.
* `list.sort(key=…, reverse=True)` is modelled by a stable descending
  insertion sort `stableSortDesc` (Python's sort is stable, also with
  `reverse=True`).
-/

/-- Python 3 `round` to the nearest integer, ties to even (banker's
rounding), on exact rationals. -/
def pyRound (q : ℚ) : ℤ :=
  if q - ⌊q⌋ < 1/2 then ⌊q⌋
  else if 1/2 < q - ⌊q⌋ then ⌊q⌋ + 1
  else if ⌊q⌋ % 2 = 0 then ⌊q⌋ else ⌊q⌋ + 1

/-- Python 3 `round(x, 1)` (one decimal digit), on exact rationals. -/
def pyRound1 (q : ℚ) : ℚ := (pyRound (q * 10) : ℚ) / 10

/-- Python 3 `round(x, 2)` (two decimal digits), on exact rationals. -/
def pyRound2 (q : ℚ) : ℚ := (pyRound (q * 100) : ℚ) / 100

theorem pyRound_le (q : ℚ) : pyRound q ≤ ⌊q⌋ + 1 := by
  unfold pyRound
  split_ifs <;> omega

theorem le_pyRound (q : ℚ) : ⌊q⌋ ≤ pyRound q := by
  unfold pyRound
  split_ifs <;> omega

/-- Round-half-to-even is monotone. -/
theorem pyRound_mono {x y : ℚ} (h : x ≤ y) : pyRound x ≤ pyRound y := by
  have hf : (⌊x⌋ : ℤ) ≤ ⌊y⌋ := Int.floor_le_floor h
  rcases lt_or_eq_of_le hf with hlt | heq
  · calc pyRound x ≤ ⌊x⌋ + 1 := pyRound_le x
      _ ≤ ⌊y⌋ := by omega
      _ ≤ pyRound y := le_pyRound y
  · unfold pyRound
    rw [← heq]
    have hxy : x - (⌊x⌋ : ℚ) ≤ y - (⌊x⌋ : ℚ) := by linarith
    split_ifs <;> first | omega | linarith

/-- `pyRound` of an integer is itself. -/
theorem pyRound_intCast (n : ℤ) : pyRound (n : ℚ) = n := by
  unfold pyRound
  rw [Int.floor_intCast]
  have h : (n : ℚ) - n = 0 := by ring
  rw [h]
  norm_num

namespace RiskCalculator

/-- The fixed 4×4 EBIOS RM risk matrix (`RISK_MATRIX` in
`risk_calculator.py`), rows = gravity 1–4, columns = likelihood 1–4. -/
def RISK_MATRIX : List (List ℤ) :=
  [[1, 1, 2, 2],
   [1, 2, 2, 3],
   [2, 2, 3, 4],
   [2, 3, 4, 4]]

/-- The `levels` dictionary of `calculate_risk_level`:
`{1: "Faible", 2: "Acceptable", 3: "Modéré", 4: "Critique"}`;
`none` models a `KeyError`. -/
def levels (s : ℤ) : Option String :=
  if s = 1 then some "Faible"
  else if s = 2 then some "Acceptable"
  else if s = 3 then some "Modéré"
  else if s = 4 then some "Critique"
  else none

/-- Python list indexing `l[i]`: non-negative indices from the front,
negative indices from the back, `none` models an `IndexError`. -/
def pyGet {α : Type} (l : List α) (i : ℤ) : Option α :=
  if 0 ≤ i then l.get? i.toNat
  else if 0 ≤ (l.length : ℤ) + i then l.get? ((l.length : ℤ) + i).toNat
  else none

/-- `RiskCalculator.calculate_risk_level(gravite, vraisemblance)`:
range-checks both inputs (raising `ValueError`, modelled by `none`,
otherwise), looks up `RISK_MATRIX[gravite-1][vraisemblance-1]` and pairs
the score with its `levels` name. -/
def calculate_risk_level (gravite vraisemblance : ℤ) : Option (ℤ × String) :=
  if 1 ≤ gravite ∧ gravite ≤ 4 ∧ 1 ≤ vraisemblance ∧ vraisemblance ≤ 4 then
    match (pyGet RISK_MATRIX (gravite - 1)).bind (fun row => pyGet row (vraisemblance - 1)) with
    | some score => (levels score).map (fun nom => (score, nom))
    | none => none
  else none

/-- `RiskCalculator.calculate_residual_risk(risque_initial,
efficacite_mesures)`: validates `0 ≤ efficacite ≤ 1` then
`1 ≤ risque_initial ≤ 4` (each `raise` modelled by `none`), and returns
`(max(1, round(initial − initial×eff)), level, round(pct, 1))`. -/
def calculate_residual_risk (risque_initial : ℤ) (efficacite_mesures : ℚ) :
    Option (ℤ × String × ℚ) :=
  if ¬(0 ≤ efficacite_mesures ∧ efficacite_mesures ≤ 1) then none
  else if ¬(1 ≤ risque_initial ∧ risque_initial ≤ 4) then none
  else
    let reduction : ℚ := risque_initial * efficacite_mesures
    let risque_residuel : ℤ := max 1 (pyRound (risque_initial - reduction))
    let reduction_pct : ℚ := (reduction / risque_initial) * 100
    (levels risque_residuel).map (fun nom => (risque_residuel, nom, pyRound1 reduction_pct))

end RiskCalculator

/-- Mutate, in a list, the first element satisfying `p` (Python looks an
object up with `next(...)` and then mutates that object in place; only
the first match is affected). -/
def updateFirst {α : Type} (p : α → Bool) (f : α → α) : List α → List α
  | [] => []
  | x :: xs => if p x then f x :: xs else x :: updateFirst p f xs

namespace Workshop5

/-- One entry of `assessment['risques']` (`Workshop5.add_risque`);
`justification`/`option_traitement` are `none` until `define_traitement`
adds them; timestamp fields omitted. -/
structure Risque where
  id : String
  nom : String
  gravite : ℤ
  vraisemblance : ℤ
  score_brut : ℤ
  niveau_brut : String
  scenario_reference : String
  statut : String
  option_traitement : Option String
  justification : Option String
  mesures_associees : List String
  deriving DecidableEq, Repr

/-- One entry of `assessment['mesures_traitement']`
(`Workshop5.add_mesure_traitement`); timestamp omitted. -/
structure MesureTraitement where
  id : String
  nom : String
  type : String
  description : String
  cout_estime : ℚ
  efficacite : ℚ
  delai_mise_en_oeuvre : ℤ
  responsable : String
  statut : String
  risques_couverts : List String
  deriving DecidableEq, Repr

/-- One entry of `assessment['risques_residuels']`
(`Workshop5.calculate_risque_residuel`); the no-measure branch builds a
dict without a `reduction_pct` key, modelled by `none`; timestamp
omitted. -/
structure RisqueResiduel where
  risque_id : String
  score_brut : ℤ
  score_residuel : ℤ
  niveau_residuel : String
  reduction : ℚ
  reduction_pct : Option ℚ
  mesures_appliquees : List String
  deriving DecidableEq, Repr

/-- One entry of `assessment['risques_acceptes']`
(`Workshop5.accept_risque`); timestamp and review date omitted. -/
structure Acceptation where
  risque_id : String
  nom_risque : String
  score_residuel : ℤ
  niveau_residuel : String
  acceptant : String
  justification : String
  conditions : List String
  deriving DecidableEq, Repr

/-- The `assessment` record of `Workshop5` (`plan_traitement` and `kpis`
are untouched by the modelled operations and omitted). -/
structure State where
  risques : List Risque
  mesures_traitement : List MesureTraitement
  risques_residuels : List RisqueResiduel
  risques_acceptes : List Acceptation
  budget_estime : ℚ
  deriving DecidableEq, Repr

/-- `Workshop5.__init__`. -/
def init : State :=
  { risques := [], mesures_traitement := [], risques_residuels := [],
    risques_acceptes := [], budget_estime := 0 }

/-- The local copy of the 4×4 matrix in `Workshop5._calculate_risk_score`. -/
def matrice : List (List ℤ) :=
  [[1, 1, 2, 2],
   [1, 2, 2, 3],
   [2, 2, 3, 4],
   [2, 3, 4, 4]]

/-- `Workshop5._calculate_risk_score`: plain Python list indexing
`matrice[gravite-1][vraisemblance-1]` — no range check, negative indices
wrap, `none` models an `IndexError`. -/
def calculate_risk_score (gravite vraisemblance : ℤ) : Option ℤ :=
  (RiskCalculator.pyGet matrice (gravite - 1)).bind
    (fun row => RiskCalculator.pyGet row (vraisemblance - 1))

/-- `Workshop5._get_risk_level`. -/
def get_risk_level (score : ℤ) : String :=
  if score = 1 then "Faible"
  else if score = 2 then "Acceptable"
  else if score = 3 then "Modéré"
  else if score = 4 then "Critique"
  else "Indéterminé"

/-- `Workshop5.add_risque`: computes the gross score via
`_calculate_risk_score` (which may raise `IndexError`, before any
mutation) and appends the new risk with status `"Non traité"`. -/
def add_risque (s : State) (risque_id nom : String)
    (gravite vraisemblance : ℤ) (scenario_ref : String) :
    Option (Risque × State) :=
  match calculate_risk_score gravite vraisemblance with
  | none => none
  | some score_brut =>
    let risque : Risque :=
      { id := risque_id, nom := nom, gravite := gravite,
        vraisemblance := vraisemblance, score_brut := score_brut,
        niveau_brut := get_risk_level score_brut,
        scenario_reference := scenario_ref, statut := "Non traité",
        option_traitement := none, justification := none,
        mesures_associees := [] }
    some (risque, { s with risques := s.risques ++ [risque] })

/-- `Workshop5.define_traitement`: validates the option against the fixed
list, looks the risk up (each `raise` modelled by `none`), then sets the
treatment fields and the status `"Stratégie définie"` on that risk. -/
def define_traitement (s : State) (risque_id option justification : String) :
    Option (Risque × State) :=
  if ¬(option = "Atténuation" ∨ option = "Transfert" ∨
        option = "Évitement" ∨ option = "Acceptation") then none
  else
    match s.risques.find? (fun r => r.id == risque_id) with
    | none => none
    | some r =>
      let r' : Risque :=
        { r with option_traitement := some option,
                 justification := some justification,
                 statut := "Stratégie définie" }
      some (r', { s with
        risques := updateFirst (fun r => r.id == risque_id)
          (fun r => { r with option_traitement := some option,
                             justification := some justification,
                             statut := "Stratégie définie" }) s.risques })

/-- `Workshop5.add_mesure_traitement`: validates `0 ≤ efficacite ≤ 1`
(raising before any mutation), appends the measure with id
`"M" ++ (count+1)` and empty `risques_couverts`, and accumulates the
budget. -/
def add_mesure_traitement (s : State) (nom type_mesure description : String)
    (cout_estime efficacite : ℚ) (delai_mise_en_oeuvre : ℤ)
    (responsable : String) : Option (MesureTraitement × State) :=
  if ¬(0 ≤ efficacite ∧ efficacite ≤ 1) then none
  else
    let mesure : MesureTraitement :=
      { id := "M" ++ toString (s.mesures_traitement.length + 1),
        nom := nom, type := type_mesure, description := description,
        cout_estime := cout_estime, efficacite := efficacite,
        delai_mise_en_oeuvre := delai_mise_en_oeuvre,
        responsable := responsable, statut := "Planifiée",
        risques_couverts := [] }
    some (mesure, { s with
      mesures_traitement := s.mesures_traitement ++ [mesure],
      budget_estime := s.budget_estime + cout_estime })

/-- `Workshop5.associate_mesure_to_risque`: looks both entities up,
returns `False` (state untouched) if either is missing; otherwise appends
each id to the other's link list when not already present. -/
def associate_mesure_to_risque (s : State) (risque_id mesure_id : String) :
    Bool × State :=
  match s.risques.find? (fun r => r.id == risque_id),
        s.mesures_traitement.find? (fun m => m.id == mesure_id) with
  | some _, some _ =>
    (true, { s with
      risques := updateFirst (fun r => r.id == risque_id)
        (fun r => if mesure_id ∈ r.mesures_associees then r
                  else { r with mesures_associees := r.mesures_associees ++ [mesure_id] })
        s.risques,
      mesures_traitement := updateFirst (fun m => m.id == mesure_id)
        (fun m => if risque_id ∈ m.risques_couverts then m
                  else { m with risques_couverts := m.risques_couverts ++ [risque_id] })
        s.mesures_traitement })
  | _, _ => (false, s)

/-- `Workshop5.calculate_risque_residuel`: looks the risk up (`raise`
modelled by `none`), gathers the associated measures, computes the
residual entry (gross score when no measure; otherwise capped combined
efficacy `min(0.95, Σ)`), removes any prior entry for that risk and
appends the new one. -/
def calculate_risque_residuel (s : State) (risque_id : String) :
    Option (RisqueResiduel × State) :=
  match s.risques.find? (fun r => r.id == risque_id) with
  | none => none
  | some risque =>
    let mesures : List MesureTraitement :=
      s.mesures_traitement.filter (fun m => risque.mesures_associees.contains m.id)
    let risque_residuel : RisqueResiduel :=
      if mesures.isEmpty then
        { risque_id := risque_id, score_brut := risque.score_brut,
          score_residuel := risque.score_brut,
          niveau_residuel := risque.niveau_brut,
          reduction := 0, reduction_pct := none, mesures_appliquees := [] }
      else
        let efficacite_totale : ℚ := min (95/100) ((mesures.map (fun m => m.efficacite)).sum)
        let reduction : ℚ := risque.score_brut * efficacite_totale
        let score_residuel : ℤ := max 1 (pyRound (risque.score_brut - reduction))
        { risque_id := risque_id, score_brut := risque.score_brut,
          score_residuel := score_residuel,
          niveau_residuel := get_risk_level score_residuel,
          reduction := pyRound2 reduction,
          reduction_pct := some (pyRound1 ((reduction / risque.score_brut) * 100)),
          mesures_appliquees := mesures.map (fun m => m.id) }
    some (risque_residuel, { s with
      risques_residuels :=
        (s.risques_residuels.eraseP (fun r => r.risque_id == risque_id)) ++ [risque_residuel] })

/-- `Workshop5.accept_risque`: looks the risk up (`raise` modelled by
`none`), recomputes the residual risk, records the acceptance and sets
the risk's status to `"Accepté"`. -/
def accept_risque (s : State) (risque_id acceptant justification : String) :
    Option (Acceptation × State) :=
  match s.risques.find? (fun r => r.id == risque_id) with
  | none => none
  | some risque =>
    match calculate_risque_residuel s risque_id with
    | none => none
    | some (risque_res, s') =>
      let acceptation : Acceptation :=
        { risque_id := risque_id, nom_risque := risque.nom,
          score_residuel := risque_res.score_residuel,
          niveau_residuel := risque_res.niveau_residuel,
          acceptant := acceptant, justification := justification,
          conditions := [] }
      some (acceptation, { s' with
        risques_acceptes := s'.risques_acceptes ++ [acceptation],
        risques := updateFirst (fun r => r.id == risque_id)
          (fun r => { r with statut := "Accepté" }) s'.risques })

end Workshop5

/-- Stable insertion step for a descending sort: `x` is placed after
every element whose key is `≥ key x` and before the first strictly
smaller one. -/
def insertDesc {α : Type} (key : α → ℤ) (x : α) : List α → List α
  | [] => [x]
  | y :: ys => if key y < key x then x :: y :: ys else y :: insertDesc key x ys

/-- Left fold of `insertDesc` over the input, accumulating a sorted
list. -/
def sortDescAux {α : Type} (key : α → ℤ) : List α → List α → List α
  | acc, [] => acc
  | acc, x :: xs => sortDescAux key (insertDesc key x acc) xs

/-- Model of Python `list.sort(key=…, reverse=True)`: a stable descending
sort (Python's sort is stable, and `reverse=True` keeps ties in original
order). Any stable sort has the same output, so insertion sort is a
faithful model. -/
def stableSortDesc {α : Type} (key : α → ℤ) (l : List α) : List α :=
  sortDescAux key [] l

namespace Workshop1

/-- One entry of `study['missions']` (`Workshop1.add_mission`). -/
structure Mission where
  id : String
  nom : String
  description : String
  criticite : ℤ
  deriving DecidableEq, Repr

/-- The part of `Workshop1.study` touched by `add_mission`. -/
structure State where
  missions : List Mission
  deriving DecidableEq, Repr

/-- `Workshop1.__init__` (missions part). -/
def init : State := { missions := [] }

/-- `Workshop1.add_mission`: raises `ValueError` (modelled `none`, before
any mutation) when the criticality is outside `[1,4]`, else appends the
mission and returns `True`. -/
def add_mission (s : State) (nom description : String) (criticite : ℤ) :
    Option State :=
  if ¬(1 ≤ criticite ∧ criticite ≤ 4) then none
  else
    some { s with missions := s.missions ++
      [{ id := "M" ++ toString (s.missions.length + 1), nom := nom,
         description := description, criticite := criticite }] }

end Workshop1

namespace Workshop2

/-- One entry of `assessment['sources_risque']`
(`Workshop2.add_source_risque`). -/
structure SourceRisque where
  id : String
  nom : String
  type : String
  ressources : ℤ
  determination : ℤ
  competences : ℤ
  capacite_globale : ℚ
  niveau : String
  deriving DecidableEq, Repr

/-- One entry of `assessment['objectifs_vises']`
(`Workshop2.add_objectif_vise`). -/
structure ObjectifVise where
  id : String
  nom : String
  description : String
  impact_potentiel : ℤ
  deriving DecidableEq, Repr

/-- One entry of `assessment['cartographie_sr_ov']`
(`Workshop2.map_sr_to_ov`). -/
structure Relation where
  sr_id : String
  ov_id : String
  pertinence : ℤ
  gravite_scenario : ℤ
  deriving DecidableEq, Repr

/-- One entry of `assessment['scenarios_strategiques']`
(`Workshop2.generate_scenarios_strategiques`). -/
structure ScenarioStrategique where
  id : String
  source_risque : String
  source_risque_type : String
  objectif_vise : String
  objectif_description : String
  gravite : ℤ
  niveau_risque : String
  pertinence : ℤ
  capacite_sr : ℚ
  impact_ov : ℤ
  deriving DecidableEq, Repr

/-- The `assessment` record of `Workshop2`. -/
structure State where
  sources_risque : List SourceRisque
  objectifs_vises : List ObjectifVise
  cartographie_sr_ov : List Relation
  scenarios_strategiques : List ScenarioStrategique
  deriving DecidableEq, Repr

/-- `Workshop2.__init__`. -/
def init : State :=
  { sources_risque := [], objectifs_vises := [],
    cartographie_sr_ov := [], scenarios_strategiques := [] }

/-- `Workshop2._get_capacite_level`. -/
def get_capacite_level (capacite : ℚ) : String :=
  if capacite ≤ 3/2 then "Faible"
  else if capacite ≤ 5/2 then "Moyen"
  else if capacite ≤ 7/2 then "Fort"
  else "Très fort"

/-- `Workshop2.add_source_risque`: validates the three `[1,4]` factors
(raising, modelled `none`, before any mutation), derives the capability
`round(mean, 1)` and appends. -/
def add_source_risque (s : State) (nom type_sr : String)
    (ressources determination competences : ℤ) :
    Option (SourceRisque × State) :=
  if ¬(1 ≤ ressources ∧ ressources ≤ 4 ∧ 1 ≤ determination ∧
        determination ≤ 4 ∧ 1 ≤ competences ∧ competences ≤ 4) then none
  else
    let capacite_globale : ℚ :=
      pyRound1 (((ressources + determination + competences : ℤ) : ℚ) / 3)
    let sr : SourceRisque :=
      { id := "SR" ++ toString (s.sources_risque.length + 1), nom := nom,
        type := type_sr, ressources := ressources,
        determination := determination, competences := competences,
        capacite_globale := capacite_globale,
        niveau := get_capacite_level capacite_globale }
    some (sr, { s with sources_risque := s.sources_risque ++ [sr] })

/-- `Workshop2.add_objectif_vise`: validates the impact (raising,
modelled `none`, before any mutation) and appends. -/
def add_objectif_vise (s : State) (nom description : String)
    (impact_potentiel : ℤ) : Option (ObjectifVise × State) :=
  if ¬(1 ≤ impact_potentiel ∧ impact_potentiel ≤ 4) then none
  else
    let ov : ObjectifVise :=
      { id := "OV" ++ toString (s.objectifs_vises.length + 1), nom := nom,
        description := description, impact_potentiel := impact_potentiel }
    some (ov, { s with objectifs_vises := s.objectifs_vises ++ [ov] })

/-- `Workshop2._calculate_gravite`: `(capacité × pertinence × impact)/10`
banded onto `[1,4]`. -/
def calculate_gravite (capacite_sr : ℚ) (impact_ov pertinence : ℤ) : ℤ :=
  let score : ℚ := (capacite_sr * pertinence * impact_ov) / 10
  if score ≤ 3/2 then 1
  else if score ≤ 5/2 then 2
  else if score ≤ 7/2 then 3
  else 4

/-- `Workshop2.map_sr_to_ov`: validates the relevance (raising, modelled
by the outer `none`), looks both entities up and, if either is missing,
returns the empty dict (inner `none`) without mutating; otherwise appends
the relation carrying the derived scenario gravity. -/
def map_sr_to_ov (s : State) (sr_id ov_id : String) (pertinence : ℤ) :
    Option (Option Relation × State) :=
  if ¬(1 ≤ pertinence ∧ pertinence ≤ 4) then none
  else
    match s.sources_risque.find? (fun x => x.id == sr_id),
          s.objectifs_vises.find? (fun o => o.id == ov_id) with
    | some sr, some ov =>
      let relation : Relation :=
        { sr_id := sr_id, ov_id := ov_id, pertinence := pertinence,
          gravite_scenario :=
            calculate_gravite sr.capacite_globale ov.impact_potentiel pertinence }
      some (some relation,
        { s with cartographie_sr_ov := s.cartographie_sr_ov ++ [relation] })
    | _, _ => some (none, s)

/-- `Workshop2._get_risk_level` (dict `.get` with default). -/
def get_risk_level (gravite : ℤ) : String :=
  if gravite = 1 then "Faible"
  else if gravite = 2 then "Modéré"
  else if gravite = 3 then "Élevé"
  else if gravite = 4 then "Critique"
  else "Indéterminé"

/-- One iteration of the `generate_scenarios_strategiques` loop: when
both referenced entities resolve, append the scenario (its id numbered
from the running count), otherwise skip the mapping entry. -/
def buildStep (s : State) (acc : List ScenarioStrategique)
    (relation : Relation) : List ScenarioStrategique :=
  match s.sources_risque.find? (fun x => x.id == relation.sr_id),
        s.objectifs_vises.find? (fun o => o.id == relation.ov_id) with
  | some sr, some ov =>
    acc ++ [{ id := "SS" ++ toString (acc.length + 1),
              source_risque := sr.nom, source_risque_type := sr.type,
              objectif_vise := ov.nom, objectif_description := ov.description,
              gravite := relation.gravite_scenario,
              niveau_risque := get_risk_level relation.gravite_scenario,
              pertinence := relation.pertinence,
              capacite_sr := sr.capacite_globale,
              impact_ov := ov.impact_potentiel }]
  | _, _ => acc

/-- The loop of `generate_scenarios_strategiques`: one scenario per
mapping entry whose two ids resolve, in mapping order. -/
def buildScenarios (s : State) : List ScenarioStrategique :=
  s.cartographie_sr_ov.foldl (buildStep s) []

/-- `Workshop2.generate_scenarios_strategiques`: clears the scenario
list, rebuilds it from the current mapping and sorts it descending by
gravity (stable). -/
def generate_scenarios_strategiques (s : State) :
    List ScenarioStrategique × State :=
  let sorted := stableSortDesc (fun sc => sc.gravite) (buildScenarios s)
  (sorted, { s with scenarios_strategiques := sorted })

end Workshop2

namespace Workshop3

/-- One entry of `assessment['parties_prenantes']`
(`Workshop3.add_partie_prenante`). -/
structure PartiePrenante where
  id : String
  nom : String
  type : String
  dependance : ℤ
  exposition : ℤ
  confiance : ℤ
  maturite : ℤ
  score_risque_tiers : ℚ
  niveau_criticite : String
  deriving DecidableEq, Repr

/-- The part of `Workshop3.assessment` touched by
`add_partie_prenante`. -/
structure State where
  parties_prenantes : List PartiePrenante
  deriving DecidableEq, Repr

/-- `Workshop3.__init__` (stakeholder part). -/
def init : State := { parties_prenantes := [] }

/-- `Workshop3._get_criticite_level`. -/
def get_criticite_level (score : ℚ) : String :=
  if score ≤ 3/2 then "Faible"
  else if score ≤ 5/2 then "Modéré"
  else if score ≤ 7/2 then "Élevé"
  else "Critique"

/-- `Workshop3.add_partie_prenante`: no validation; derives
`round((dependance + exposition − maturite)/3, 1)` and its criticality
band, and appends. -/
def add_partie_prenante (s : State) (nom type_pp : String)
    (dependance exposition confiance maturite : ℤ) :
    PartiePrenante × State :=
  let score_risque : ℚ :=
    pyRound1 (((dependance + exposition - maturite : ℤ) : ℚ) / 3)
  let pp : PartiePrenante :=
    { id := "PP" ++ toString (s.parties_prenantes.length + 1), nom := nom,
      type := type_pp, dependance := dependance, exposition := exposition,
      confiance := confiance, maturite := maturite,
      score_risque_tiers := score_risque,
      niveau_criticite := get_criticite_level score_risque }
  (pp, { s with parties_prenantes := s.parties_prenantes ++ [pp] })

end Workshop3

namespace Workshop4

/-- One entry of `assessment['scenarios_operationnels']`
(`Workshop4.add_scenario_operationnel`); timestamp omitted. -/
structure ScenarioOperationnel where
  id : String
  scenario_strategique_ref : String
  nom : String
  description : String
  actions_elementaires : List String
  vraisemblance : ℤ
  deriving DecidableEq, Repr

/-- One entry of `assessment['actions_elementaires']`
(`Workshop4.add_action_elementaire`). -/
structure ActionElementaire where
  id : String
  nom : String
  technique_mitre : String
  difficulte : ℤ
  detectabilite : ℤ
  vraisemblance_action : ℤ
  deriving DecidableEq, Repr

/-- One entry of `assessment['mesures_existantes']`
(`Workshop4.add_mesure_existante`). -/
structure MesureExistante where
  id : String
  nom : String
  type : String
  efficacite : ℚ
  actions_couvertes : List String
  deriving DecidableEq, Repr

/-- One entry of `assessment['synthese_risques']`
(`Workshop4.synthetize_risks`). -/
structure RisqueSynthese where
  scenario_id : String
  nom : String
  gravite : ℤ
  vraisemblance : ℤ
  risque_brut : ℤ
  risque_residuel : ℤ
  niveau : String
  reduction_pct : ℚ
  deriving DecidableEq, Repr

/-- The `assessment` record of `Workshop4`. -/
structure State where
  scenarios_operationnels : List ScenarioOperationnel
  actions_elementaires : List ActionElementaire
  mesures_existantes : List MesureExistante
  synthese_risques : List RisqueSynthese
  deriving DecidableEq, Repr

/-- `Workshop4.__init__`. -/
def init : State :=
  { scenarios_operationnels := [], actions_elementaires := [],
    mesures_existantes := [], synthese_risques := [] }

/-- `Workshop4.add_scenario_operationnel`: no validation, appends with
likelihood `0` ("to compute"). -/
def add_scenario_operationnel (s : State)
    (scenario_strategique_id nom description : String)
    (actions : List String) : ScenarioOperationnel × State :=
  let so : ScenarioOperationnel :=
    { id := "SO" ++ toString (s.scenarios_operationnels.length + 1),
      scenario_strategique_ref := scenario_strategique_id, nom := nom,
      description := description, actions_elementaires := actions,
      vraisemblance := 0 }
  (so, { s with scenarios_operationnels := s.scenarios_operationnels ++ [so] })

/-- `Workshop4._calculate_vraisemblance_action`:
`((5−difficulté)+(5−détectabilité))/2` banded onto `[1,4]`. -/
def calculate_vraisemblance_action (difficulte detectabilite : ℤ) : ℤ :=
  let score : ℚ := (((5 - difficulte) + (5 - detectabilite) : ℤ) : ℚ) / 2
  if score ≤ 3/2 then 1
  else if score ≤ 5/2 then 2
  else if score ≤ 7/2 then 3
  else 4

/-- `Workshop4.add_action_elementaire`: no validation, appends with the
derived action likelihood. -/
def add_action_elementaire (s : State) (nom technique_mitre : String)
    (difficulte detectabilite : ℤ) : ActionElementaire × State :=
  let action : ActionElementaire :=
    { id := "AE" ++ toString (s.actions_elementaires.length + 1),
      nom := nom, technique_mitre := technique_mitre,
      difficulte := difficulte, detectabilite := detectabilite,
      vraisemblance_action :=
        calculate_vraisemblance_action difficulte detectabilite }
  (action, { s with actions_elementaires := s.actions_elementaires ++ [action] })

/-- `Workshop4.add_mesure_existante`: performs no validation at all
(in particular none on `efficacite`) and appends the measure. -/
def add_mesure_existante (s : State) (nom type_mesure : String)
    (efficacite : ℚ) (couverture : List String) :
    MesureExistante × State :=
  let mesure : MesureExistante :=
    { id := "ME" ++ toString (s.mesures_existantes.length + 1), nom := nom,
      type := type_mesure, efficacite := efficacite,
      actions_couvertes := couverture }
  (mesure, { s with mesures_existantes := s.mesures_existantes ++ [mesure] })

/-- `Workshop4.calculate_vraisemblance_scenario`: returns `0` (no
mutation) when the scenario id is unknown or it references no existing
action; otherwise rounds the mean of the referenced actions' likelihoods
and stores it in the scenario's `vraisemblance` field. -/
def calculate_vraisemblance_scenario (s : State) (scenario_id : String) :
    ℤ × State :=
  match s.scenarios_operationnels.find? (fun so => so.id == scenario_id) with
  | none => (0, s)
  | some scenario =>
    let actions : List ActionElementaire :=
      s.actions_elementaires.filter
        (fun a => scenario.actions_elementaires.contains a.id)
    if actions.isEmpty then (0, s)
    else
      let avg : ℚ :=
        (((actions.map (fun a => a.vraisemblance_action)).sum : ℤ) : ℚ) /
          (actions.length : ℚ)
      let vraisemblance : ℤ := pyRound avg
      (vraisemblance, { s with
        scenarios_operationnels := updateFirst
          (fun so => so.id == scenario_id)
          (fun so => { so with vraisemblance := vraisemblance })
          s.scenarios_operationnels })

/-- `Workshop4._calculate_risk_reduction`: per measure, every requested
action it covers contributes that measure's efficacy once to the running
sum; the covered set deduplicates requested action ids; result
`min(0.9, coverageRatio × avgEfficacy)`, `0` when no measure or no
overlap. -/
def calculate_risk_reduction (s : State) (action_ids : List String) : ℚ :=
  if s.mesures_existantes.isEmpty then 0
  else
    let efficacite_totale : ℚ :=
      (s.mesures_existantes.map (fun m =>
        ((action_ids.filter (fun aid => m.actions_couvertes.contains aid)).length : ℚ)
          * m.efficacite)).sum
    let actions_couvertes : List String :=
      (action_ids.filter (fun aid =>
        s.mesures_existantes.any (fun m => m.actions_couvertes.contains aid))).dedup
    if actions_couvertes.isEmpty then 0
    else
      let couverture_pct : ℚ :=
        if action_ids.isEmpty then 0
        else (actions_couvertes.length : ℚ) / (action_ids.length : ℚ)
      let efficacite_moyenne : ℚ :=
        efficacite_totale / (actions_couvertes.length : ℚ)
      min (9/10) (couverture_pct * efficacite_moyenne)

/-- `Workshop4._get_risk_level` (the 5-band table over the product
range). -/
def get_risk_level (score : ℤ) : String :=
  if score ≤ 2 then "Faible"
  else if score ≤ 4 then "Acceptable"
  else if score ≤ 8 then "Modéré"
  else if score ≤ 12 then "Élevé"
  else "Critique"

/-- The body of the `for scenario in …` loop of `synthetize_risks`, one
call per list position: recompute the likelihood in place when it is `0`,
then read the (possibly updated) object at that position and append its
synthesis row. -/
def synthLoop (gravite_base : ℤ) :
    List ℕ → State → List RisqueSynthese → State × List RisqueSynthese
  | [], s, acc => (s, acc)
  | k :: ks, s, acc =>
    match s.scenarios_operationnels.get? k with
    | none => synthLoop gravite_base ks s acc
    | some scenario =>
      let s1 : State :=
        if scenario.vraisemblance = 0 then
          (calculate_vraisemblance_scenario s scenario.id).2
        else s
      match s1.scenarios_operationnels.get? k with
      | none => synthLoop gravite_base ks s1 acc
      | some sc1 =>
        let risque_brut : ℤ := gravite_base * sc1.vraisemblance
        let reduction : ℚ := calculate_risk_reduction s1 sc1.actions_elementaires
        let risque_residuel : ℤ := max 1 (pyRound (risque_brut * (1 - reduction)))
        synthLoop gravite_base ks s1 (acc ++
          [{ scenario_id := sc1.id, nom := sc1.nom, gravite := gravite_base,
             vraisemblance := sc1.vraisemblance, risque_brut := risque_brut,
             risque_residuel := risque_residuel,
             niveau := get_risk_level risque_residuel,
             reduction_pct := pyRound1 (reduction * 100) }])

/-- `Workshop4.synthetize_risks`: clears the synthesis, runs the loop
above over every scenario position and sorts the rows descending by
residual risk (stable). -/
def synthetize_risks (s : State) (gravite_base : ℤ) :
    List RisqueSynthese × State :=
  let r := synthLoop gravite_base
    (List.range s.scenarios_operationnels.length) s []
  let sorted := stableSortDesc (fun x => x.risque_residuel) r.2
  (sorted, { r.1 with synthese_risques := sorted })

end Workshop4

/-! ## Helper lemmas about `updateFirst`, `List.find?` and `List.countP` -/

theorem find?_updateFirst {α : Type} (p : α → Bool) (f : α → α)
    (hpf : ∀ x, p (f x) = p x) (l : List α) :
    (updateFirst p f l).find? p = (l.find? p).map f := by
  induction l with
  | nil => rfl
  | cons x xs ih =>
    by_cases hx : p x = true
    · simp [updateFirst, hx, List.find?_cons, hpf]
    · simp only [Bool.not_eq_true] at hx
      simp [updateFirst, hx, List.find?_cons, ih]

theorem get?_updateFirst {α : Type} (p : α → Bool) (f : α → α) :
    ∀ (l : List α) (k : ℕ) (r : α), l.get? k = some r →
      (updateFirst p f l).get? k = some r ∨
      (updateFirst p f l).get? k = some (f r)
  | [], k, r, h => by simp at h
  | x :: xs, 0, r, h => by
    simp only [List.get?_cons_zero, Option.some_inj] at h
    subst h
    by_cases hx : p x = true
    · right; simp [updateFirst, hx]
    · left; simp only [Bool.not_eq_true] at hx; simp [updateFirst, hx]
  | x :: xs, k + 1, r, h => by
    simp only [List.get?_cons_succ] at h
    by_cases hx : p x = true
    · left
      rw [List.get?_eq_getElem?] at h
      simp [updateFirst, hx, h]
    · simp only [Bool.not_eq_true] at hx
      simpa [updateFirst, hx] using get?_updateFirst p f xs k r h

theorem get?_updateFirst_of_not {α : Type} (p : α → Bool) (f : α → α) :
    ∀ (l : List α) (k : ℕ) (r : α), l.get? k = some r → p r = false →
      (updateFirst p f l).get? k = some r
  | [], k, r, h, _ => by simp at h
  | x :: xs, 0, r, h, hr => by
    simp only [List.get?_cons_zero, Option.some_inj] at h
    subst h
    simp [updateFirst, hr]
  | x :: xs, k + 1, r, h, hr => by
    simp only [List.get?_cons_succ] at h
    by_cases hx : p x = true
    · rw [List.get?_eq_getElem?] at h
      simp [updateFirst, hx, h]
    · simp only [Bool.not_eq_true] at hx
      simpa [updateFirst, hx] using get?_updateFirst_of_not p f xs k r h hr

theorem updateFirst_idem {α : Type} (p : α → Bool) (f : α → α)
    (hpf : ∀ x, p (f x) = p x) (hff : ∀ x, p x = true → f (f x) = f x) :
    ∀ l : List α, updateFirst p f (updateFirst p f l) = updateFirst p f l
  | [] => rfl
  | x :: xs => by
    by_cases hx : p x = true
    · simp [updateFirst, hx, hpf, hff x hx]
    · simp only [Bool.not_eq_true] at hx
      simp [updateFirst, hx, updateFirst_idem p f hpf hff xs]

theorem map_eq_self_of_forall {α : Type} (f : α → α) :
    ∀ l : List α, (∀ a ∈ l, f a = a) → l.map f = l
  | [], _ => rfl
  | x :: xs, h => by
    rw [List.map_cons, h x (List.mem_cons_self x xs),
      map_eq_self_of_forall f xs (fun a ha => h a (List.mem_cons_of_mem x ha))]

theorem updateFirst_eq_map {α : Type} (p : α → Bool) (f : α → α) :
    ∀ l : List α,
      l.Pairwise (fun a b => p a = true → p b = true → False) →
      updateFirst p f l = l.map (fun a => if p a then f a else a)
  | [], _ => rfl
  | x :: xs, h => by
    rcases List.pairwise_cons.mp h with ⟨hx, hxs⟩
    by_cases hpx : p x = true
    · have hmap : xs.map (fun a => if p a then f a else a) = xs := by
        refine map_eq_self_of_forall _ xs ?_
        intro a ha
        have : ¬ p a = true := fun hpa => hx a ha hpx hpa
        simp [this]
      simp [updateFirst, hpx, hmap]
    · simp only [Bool.not_eq_true] at hpx
      simp [updateFirst, hpx, updateFirst_eq_map p f xs hxs]

theorem countP_eraseP_of_le_one {α : Type} (p : α → Bool) :
    ∀ l : List α, l.countP p ≤ 1 → (l.eraseP p).countP p = 0
  | [], _ => rfl
  | x :: xs, h => by
    by_cases hx : p x = true
    · rw [List.eraseP_cons_of_pos hx]
      rw [List.countP_cons_of_pos _ _ hx] at h
      omega
    · simp only [Bool.not_eq_true] at hx
      rw [List.eraseP_cons_of_neg (by simp [hx])]
      rw [List.countP_cons_of_neg _ _ (by simp [hx])] at h
      rw [List.countP_cons_of_neg _ _ (by simp [hx])]
      exact countP_eraseP_of_le_one p xs h

/-! ## Helper lemmas about the stable descending sort -/

theorem mem_insertDesc {α : Type} (key : α → ℤ) (x a : α) :
    ∀ l : List α, a ∈ insertDesc key x l ↔ a = x ∨ a ∈ l
  | [] => by simp [insertDesc]
  | y :: ys => by
    by_cases h : key y < key x
    · simp [insertDesc, h]
    · simp only [insertDesc, if_neg h, List.mem_cons, mem_insertDesc key x a ys]
      tauto

theorem insertDesc_pairwise {α : Type} (key : α → ℤ) (x : α) :
    ∀ l : List α, l.Pairwise (fun a b => key b ≤ key a) →
      (insertDesc key x l).Pairwise (fun a b => key b ≤ key a)
  | [], _ => by simp [insertDesc]
  | y :: ys, h => by
    rcases List.pairwise_cons.mp h with ⟨hy, hys⟩
    by_cases hxy : key y < key x
    · rw [insertDesc, if_pos hxy]
      refine List.pairwise_cons.mpr ⟨?_, h⟩
      intro b hb
      rcases List.mem_cons.mp hb with rfl | hb
      · exact le_of_lt hxy
      · exact le_trans (hy b hb) (le_of_lt hxy)
    · rw [insertDesc, if_neg hxy]
      refine List.pairwise_cons.mpr ⟨?_, insertDesc_pairwise key x ys hys⟩
      intro b hb
      rcases (mem_insertDesc key x b ys).mp hb with rfl | hb
      · exact le_of_not_lt hxy
      · exact hy b hb

theorem filter_eq_nil_of_keys_lt {α : Type} (key : α → ℤ) (g : ℤ) :
    ∀ l : List α, (∀ a ∈ l, key a < g) →
      l.filter (fun a => key a == g) = []
  | [], _ => rfl
  | y :: ys, h => by
    have hy : ¬ (key y == g) = true := by
      simpa using ne_of_lt (h y (List.mem_cons_self y ys))
    rw [List.filter_cons, if_neg hy]
    exact filter_eq_nil_of_keys_lt key g ys (fun a ha => h a (List.mem_cons_of_mem y ha))

theorem insertDesc_filter_eq {α : Type} (key : α → ℤ) (x : α) (g : ℤ)
    (hx : key x = g) :
    ∀ l : List α, l.Pairwise (fun a b => key b ≤ key a) →
      (insertDesc key x l).filter (fun a => key a == g) =
        l.filter (fun a => key a == g) ++ [x]
  | [], _ => by simp [insertDesc, hx]
  | y :: ys, h => by
    rcases List.pairwise_cons.mp h with ⟨hy, hys⟩
    by_cases hxy : key y < key x
    · rw [insertDesc, if_pos hxy]
      have hnil : (y :: ys).filter (fun a => key a == g) = [] := by
        refine filter_eq_nil_of_keys_lt key g (y :: ys) ?_
        intro a ha
        rcases List.mem_cons.mp ha with rfl | ha
        · omega
        · have := hy a ha; omega
      rw [hnil, List.nil_append]
      rw [List.filter_cons, if_pos (by simpa using hx), hnil]
    · rw [insertDesc, if_neg hxy]
      by_cases hyg : (key y == g) = true
      · rw [List.filter_cons, if_pos hyg, List.filter_cons, if_pos hyg,
          insertDesc_filter_eq key x g hx ys hys, List.cons_append]
      · rw [List.filter_cons, if_neg hyg, List.filter_cons, if_neg hyg,
          insertDesc_filter_eq key x g hx ys hys]

theorem insertDesc_filter_ne {α : Type} (key : α → ℤ) (x : α) (g : ℤ)
    (hx : key x ≠ g) :
    ∀ l : List α,
      (insertDesc key x l).filter (fun a => key a == g) =
        l.filter (fun a => key a == g)
  | [] => by simp [insertDesc, hx]
  | y :: ys => by
    by_cases hxy : key y < key x
    · rw [insertDesc, if_pos hxy, List.filter_cons, if_neg (by simpa using hx)]
    · rw [insertDesc, if_neg hxy]
      by_cases hyg : (key y == g) = true
      · rw [List.filter_cons, if_pos hyg, List.filter_cons, if_pos hyg,
          insertDesc_filter_ne key x g hx ys]
      · rw [List.filter_cons, if_neg hyg, List.filter_cons, if_neg hyg,
          insertDesc_filter_ne key x g hx ys]

theorem insertDesc_length {α : Type} (key : α → ℤ) (x : α) :
    ∀ l : List α, (insertDesc key x l).length = l.length + 1
  | [] => rfl
  | y :: ys => by
    by_cases hxy : key y < key x
    · simp [insertDesc, hxy]
    · simp [insertDesc, hxy, insertDesc_length key x ys]

theorem sortDescAux_spec {α : Type} (key : α → ℤ) :
    ∀ (l acc : List α), acc.Pairwise (fun a b => key b ≤ key a) →
      (sortDescAux key acc l).Pairwise (fun a b => key b ≤ key a) ∧
      (∀ g, (sortDescAux key acc l).filter (fun a => key a == g) =
        acc.filter (fun a => key a == g) ++ l.filter (fun a => key a == g)) ∧
      (sortDescAux key acc l).length = acc.length + l.length
  | [], acc, h => ⟨h, fun g => by simp [sortDescAux], by simp [sortDescAux]⟩
  | x :: xs, acc, h => by
    obtain ⟨h1, h2, h3⟩ :=
      sortDescAux_spec key xs (insertDesc key x acc) (insertDesc_pairwise key x acc h)
    refine ⟨h1, ?_, ?_⟩
    · intro g
      rw [show sortDescAux key acc (x :: xs) = sortDescAux key (insertDesc key x acc) xs from rfl,
        h2 g]
      by_cases hx : key x = g
      · rw [insertDesc_filter_eq key x g hx acc h,
          List.filter_cons, if_pos (by simpa using hx), List.append_assoc,
          List.singleton_append]
      · rw [insertDesc_filter_ne key x g hx acc,
          List.filter_cons, if_neg (by simpa using hx)]
    · rw [show sortDescAux key acc (x :: xs) = sortDescAux key (insertDesc key x acc) xs from rfl,
        h3, insertDesc_length]
      simp; omega

theorem stableSortDesc_pairwise {α : Type} (key : α → ℤ) (l : List α) :
    (stableSortDesc key l).Pairwise (fun a b => key b ≤ key a) :=
  (sortDescAux_spec key l [] (List.Pairwise.nil)).1

theorem stableSortDesc_filter {α : Type} (key : α → ℤ) (l : List α) (g : ℤ) :
    (stableSortDesc key l).filter (fun a => key a == g) =
      l.filter (fun a => key a == g) :=
  by simpa using (sortDescAux_spec key l [] (List.Pairwise.nil)).2.1 g

theorem stableSortDesc_length {α : Type} (key : α → ℤ) (l : List α) :
    (stableSortDesc key l).length = l.length :=
  by simpa using (sortDescAux_spec key l [] (List.Pairwise.nil)).2.2

/-! ## Claim C1 -/

/-- The 4×4 table exactly as the claim states it
(rows = gravity: `[1,1,2,2],[1,2,2,3],[2,2,3,4],[2,3,4,4]`). -/
def claimTable : List (List ℤ) :=
  [[1, 1, 2, 2],
   [1, 2, 2, 3],
   [2, 2, 3, 4],
   [2, 3, 4, 4]]

/-- The level names the claim assigns (the spec's English labels
1=Low, 2=Acceptable, 3=Moderate, 4=Critical denote the source's French
strings). -/
def claimLevelName (s : ℤ) : String :=
  if s = 1 then "Faible"
  else if s = 2 then "Acceptable"
  else if s = 3 then "Modéré"
  else "Critique"

/-- C1: for every `(gravity, likelihood)` both in `[1,4]`,
`RiskCalculator.calculate_risk_level` returns exactly the entry of the
fixed 4×4 table together with its mapped level name, and for every pair
with either input outside `[1,4]` the call fails (range error, `none`)
instead of returning a result. -/
theorem C1_risk_matrix (g v : ℤ) :
    ((1 ≤ g ∧ g ≤ 4 ∧ 1 ≤ v ∧ v ≤ 4) →
      ∃ score, (claimTable.get? (g - 1).toNat).bind
          (fun row => row.get? (v - 1).toNat) = some score ∧
        RiskCalculator.calculate_risk_level g v =
          some (score, claimLevelName score)) ∧
    (¬(1 ≤ g ∧ g ≤ 4 ∧ 1 ≤ v ∧ v ≤ 4) →
      RiskCalculator.calculate_risk_level g v = none) := by
  constructor
  · rintro ⟨h1, h2, h3, h4⟩
    interval_cases g <;> interval_cases v <;> exact ⟨_, rfl, by decide⟩
  · intro h
    unfold RiskCalculator.calculate_risk_level
    rw [if_neg h]

/-- Witness for C1 at the claim's sample points: `score(3,2)=2` with
level `Acceptable`, and `score(0,2)` fails. -/
theorem C1_risk_matrix_witness :
    RiskCalculator.calculate_risk_level 3 2 = some (2, "Acceptable") ∧
    RiskCalculator.calculate_risk_level 0 2 = none := by
  constructor
  · obtain ⟨s, hs, hr⟩ := (C1_risk_matrix 3 2).1 (by decide)
    have : s = 2 := by
      have := hs
      simp [claimTable] at this
      omega
    rw [hr, this]
    rfl
  · exact (C1_risk_matrix 0 2).2 (by decide)

/-! ## Claim C7 -/

/-- `levels` is populated on the whole `[1,4]` score range. -/
theorem levels_isSome_of_range (s : ℤ) (h1 : 1 ≤ s) (h4 : s ≤ 4) :
    ∃ nm, RiskCalculator.levels s = some nm := by
  interval_cases s <;> exact ⟨_, rfl⟩

/-- C7: for every fixed initial score in `[1,4]`, the residual score of
`RiskCalculator.calculate_residual_risk` is non-increasing as the measure
efficacy increases over `[0,1]`, and at efficacy `0` the residual score
equals the initial score (with its level name and a `0` reduction
percentage). -/
theorem C7_residual_monotone (i : ℤ) (e1 e2 : ℚ)
    (hi1 : 1 ≤ i) (hi4 : i ≤ 4) (he0 : 0 ≤ e1) (he12 : e1 ≤ e2) (he1 : e2 ≤ 1) :
    (∃ r1 r2 : ℤ × String × ℚ,
      RiskCalculator.calculate_residual_risk i e1 = some r1 ∧
      RiskCalculator.calculate_residual_risk i e2 = some r2 ∧
      r2.1 ≤ r1.1) ∧
    (∃ nm, RiskCalculator.levels i = some nm ∧
      RiskCalculator.calculate_residual_risk i 0 = some (i, nm, 0)) := by
  have hiq : (0 : ℚ) < (i : ℚ) := by exact_mod_cast lt_of_lt_of_le one_pos hi1
  have resid_eq : ∀ e : ℚ, 0 ≤ e → e ≤ 1 →
      ∃ nm, RiskCalculator.levels (max 1 (pyRound ((i : ℚ) - i * e))) = some nm ∧
        RiskCalculator.calculate_residual_risk i e =
          some (max 1 (pyRound ((i : ℚ) - i * e)), nm,
            pyRound1 ((i * e / i) * 100)) := by
    intro e h0 h1
    have hb1 : (1 : ℤ) ≤ max 1 (pyRound ((i : ℚ) - i * e)) := le_max_left _ _
    have hb4 : max 1 (pyRound ((i : ℚ) - i * e)) ≤ 4 := by
      have h1' : pyRound ((i : ℚ) - i * e) ≤ pyRound (i : ℚ) := by
        apply pyRound_mono
        nlinarith
      rw [pyRound_intCast] at h1'
      omega
    obtain ⟨nm, hnm⟩ := levels_isSome_of_range _ hb1 hb4
    refine ⟨nm, hnm, ?_⟩
    unfold RiskCalculator.calculate_residual_risk
    rw [if_neg (not_not_intro ⟨h0, h1⟩), if_neg (not_not_intro ⟨hi1, hi4⟩)]
    simp only [hnm, Option.map_some']
  have hmax0 : max 1 (pyRound ((i : ℚ) - i * 0)) = i := by
    rw [mul_zero, sub_zero, pyRound_intCast]
    omega
  have hpct0 : pyRound1 (((i : ℚ) * 0 / i) * 100) = 0 := by
    rw [mul_zero, zero_div, zero_mul]
    unfold pyRound1
    rw [zero_mul, show ((0 : ℚ) = ((0 : ℤ) : ℚ)) by norm_num, pyRound_intCast]
    norm_num
  constructor
  · obtain ⟨nm1, _, h1'⟩ := resid_eq e1 he0 (le_trans he12 he1)
    obtain ⟨nm2, _, h2'⟩ := resid_eq e2 (le_trans he0 he12) he1
    refine ⟨_, _, h1', h2', ?_⟩
    simp only
    apply max_le_max (le_refl 1)
    apply pyRound_mono
    have : (i : ℚ) * e1 ≤ i * e2 :=
      mul_le_mul_of_nonneg_left he12 (le_of_lt hiq)
    linarith
  · obtain ⟨nm, hnm, h0'⟩ := resid_eq 0 (le_refl 0) zero_le_one
    rw [hmax0] at hnm
    rw [hmax0, hpct0] at h0'
    exact ⟨nm, hnm, h0'⟩

/-- Witness for C7 at `initial = 2`, efficacies `0` and `1/2`. -/
theorem C7_residual_monotone_witness :
    (∃ r1 r2 : ℤ × String × ℚ,
      RiskCalculator.calculate_residual_risk 2 0 = some r1 ∧
      RiskCalculator.calculate_residual_risk 2 (1/2) = some r2 ∧
      r2.1 ≤ r1.1) ∧
    (∃ nm, RiskCalculator.levels 2 = some nm ∧
      RiskCalculator.calculate_residual_risk 2 0 = some (2, nm, 0)) :=
  C7_residual_monotone 2 0 (1/2) (by norm_num) (by norm_num) (by norm_num)
    (by norm_num) (by norm_num)

/-! ## Claim C9 -/

/-- C9: two `Workshop3.add_partie_prenante` calls on equal states whose
arguments differ only in the trust input produce stakeholders with
identical third-party risk score and criticality level: neither depends
on `confiance`. -/
theorem C9_trust_noninterference (s : Workshop3.State) (nom type_pp : String)
    (dependance exposition confiance1 confiance2 maturite : ℤ) :
    (Workshop3.add_partie_prenante s nom type_pp dependance exposition
        confiance1 maturite).1.score_risque_tiers =
      (Workshop3.add_partie_prenante s nom type_pp dependance exposition
        confiance2 maturite).1.score_risque_tiers ∧
    (Workshop3.add_partie_prenante s nom type_pp dependance exposition
        confiance1 maturite).1.niveau_criticite =
      (Workshop3.add_partie_prenante s nom type_pp dependance exposition
        confiance2 maturite).1.niveau_criticite :=
  ⟨rfl, rfl⟩

/-! ## Claim C6 -/

/-- C6: unknown-reference handling is asymmetric. With relevance in
`[1,4]`, `Workshop2.map_sr_to_ov` on an unknown source or objective id
returns the empty result with the state unchanged (silent no-op), while
`Workshop5.define_traitement`, `Workshop5.calculate_risque_residuel` and
`Workshop5.accept_risque` on an unknown risk id fail with an error
(`none`). -/
theorem C6_unknown_reference_asymmetry :
    (∀ (s : Workshop2.State) (sr_id ov_id : String) (pertinence : ℤ),
      1 ≤ pertinence → pertinence ≤ 4 →
      (s.sources_risque.find? (fun x => x.id == sr_id) = none ∨
        s.objectifs_vises.find? (fun o => o.id == ov_id) = none) →
      Workshop2.map_sr_to_ov s sr_id ov_id pertinence = some (none, s)) ∧
    (∀ (s : Workshop5.State) (rid opt j : String),
      s.risques.find? (fun r => r.id == rid) = none →
      Workshop5.define_traitement s rid opt j = none) ∧
    (∀ (s : Workshop5.State) (rid : String),
      s.risques.find? (fun r => r.id == rid) = none →
      Workshop5.calculate_risque_residuel s rid = none) ∧
    (∀ (s : Workshop5.State) (rid acceptant j : String),
      s.risques.find? (fun r => r.id == rid) = none →
      Workshop5.accept_risque s rid acceptant j = none) := by
  refine ⟨?_, ?_, ?_, ?_⟩
  · intro s sr_id ov_id pertinence h1 h4 h
    unfold Workshop2.map_sr_to_ov
    rw [if_neg (not_not_intro ⟨h1, h4⟩)]
    rcases h with h | h
    · rw [h]
    · rw [h]
      cases s.sources_risque.find? (fun x => x.id == sr_id) <;> rfl
  · intro s rid opt j h
    unfold Workshop5.define_traitement
    split_ifs with hv
    · rw [h]
    · rfl
  · intro s rid h
    unfold Workshop5.calculate_risque_residuel
    rw [h]
  · intro s rid acceptant j h
    unfold Workshop5.accept_risque
    rw [h]

/-- Witness for C6 on the empty workshops: an unknown pair is silently
skipped by `map_sr_to_ov`, while the three Workshop5 operations fail. -/
theorem C6_unknown_reference_asymmetry_witness :
    Workshop2.map_sr_to_ov Workshop2.init "SR1" "OV1" 2 =
      some (none, Workshop2.init) ∧
    Workshop5.define_traitement Workshop5.init "R1" "Atténuation" "j" = none ∧
    Workshop5.calculate_risque_residuel Workshop5.init "R1" = none ∧
    Workshop5.accept_risque Workshop5.init "R1" "dir" "j" = none :=
  ⟨C6_unknown_reference_asymmetry.1 Workshop2.init "SR1" "OV1" 2
      (by norm_num) (by norm_num) (Or.inl rfl),
   C6_unknown_reference_asymmetry.2.1 Workshop5.init "R1" "Atténuation" "j" rfl,
   C6_unknown_reference_asymmetry.2.2.1 Workshop5.init "R1" rfl,
   C6_unknown_reference_asymmetry.2.2.2 Workshop5.init "R1" "dir" "j" rfl⟩

/-! ## Claim C2 -/

/-- C2: `Workshop5.calculate_risque_residuel` on a present risk returns,
when the risk has associated measures, a residual score
`max(1, round(gross − gross × min(0.95, Σ efficacy)))`, and with no
associated measure the gross score with `0` reduction; afterwards the
residual list holds exactly one entry for that risk (any prior entry
replaced), the other state fields untouched. -/
theorem C2_residual_risk (s : Workshop5.State) (rid : String)
    (r : Workshop5.Risque)
    (hfind : s.risques.find? (fun x => x.id == rid) = some r)
    (hcount : s.risques_residuels.countP (fun x => x.risque_id == rid) ≤ 1) :
    ∃ (out : Workshop5.RisqueResiduel) (s' : Workshop5.State),
      Workshop5.calculate_risque_residuel s rid = some (out, s') ∧
      out.risque_id = rid ∧
      (if (s.mesures_traitement.filter
            (fun m => r.mesures_associees.contains m.id)).isEmpty then
        out.score_residuel = r.score_brut ∧ out.reduction = 0
      else
        out.score_residuel = max 1 (pyRound ((r.score_brut : ℚ) -
          r.score_brut * min (95/100)
            (((s.mesures_traitement.filter
                (fun m => r.mesures_associees.contains m.id)).map
              (fun m => m.efficacite)).sum))) ∧
        out.mesures_appliquees =
          (s.mesures_traitement.filter
            (fun m => r.mesures_associees.contains m.id)).map
            (fun m => m.id)) ∧
      s'.risques_residuels.countP (fun x => x.risque_id == rid) = 1 ∧
      s'.risques_residuels =
        s.risques_residuels.eraseP (fun x => x.risque_id == rid) ++ [out] ∧
      s'.risques = s.risques ∧
      s'.mesures_traitement = s.mesures_traitement := by
  unfold Workshop5.calculate_risque_residuel
  rw [hfind]
  refine ⟨_, _, rfl, ?_, ?_, ?_, rfl, rfl, rfl⟩
  · by_cases hc : (s.mesures_traitement.filter
        (fun m => r.mesures_associees.contains m.id)).isEmpty = true
    · rw [if_pos hc]
    · rw [if_neg hc]
  · by_cases hc : (s.mesures_traitement.filter
        (fun m => r.mesures_associees.contains m.id)).isEmpty = true
    · simp only [if_pos hc]
      exact ⟨trivial, trivial⟩
    · simp only [if_neg hc]
      exact ⟨trivial, trivial⟩
  · rw [List.countP_append, countP_eraseP_of_le_one _ _ hcount,
      List.countP_cons_of_pos _ _ (by
        by_cases hc : (s.mesures_traitement.filter
            (fun m => r.mesures_associees.contains m.id)).isEmpty = true
        · rw [if_pos hc]
          exact beq_self_eq_true rid
        · rw [if_neg hc]
          exact beq_self_eq_true rid),
      List.countP_nil]

/-- Concrete risk for the C2 witness: gross score 2, one associated
measure. -/
def c2Risque : Workshop5.Risque :=
  { id := "R1", nom := "Fuite de données", gravite := 2, vraisemblance := 3,
    score_brut := 2, niveau_brut := "Acceptable", scenario_reference := "SS1",
    statut := "Non traité", option_traitement := none, justification := none,
    mesures_associees := ["M1"] }

/-- Concrete measure for the C2 witness: efficacy 0.7. -/
def c2Mesure : Workshop5.MesureTraitement :=
  { id := "M1", nom := "Chiffrement", type := "Préventif", description := "d",
    cout_estime := 1000, efficacite := 7/10, delai_mise_en_oeuvre := 30,
    responsable := "RSSI", statut := "Planifiée", risques_couverts := ["R1"] }

/-- Concrete Workshop5 state for the C2 witness. -/
def c2State : Workshop5.State :=
  { risques := [c2Risque], mesures_traitement := [c2Mesure],
    risques_residuels := [], risques_acceptes := [], budget_estime := 1000 }

/-- Witness for C2 at the concrete state above. -/
theorem C2_residual_risk_witness :
    ∃ (out : Workshop5.RisqueResiduel) (s' : Workshop5.State),
      Workshop5.calculate_risque_residuel c2State "R1" = some (out, s') ∧
      out.risque_id = "R1" ∧
      (if (c2State.mesures_traitement.filter
            (fun m => c2Risque.mesures_associees.contains m.id)).isEmpty then
        out.score_residuel = c2Risque.score_brut ∧ out.reduction = 0
      else
        out.score_residuel = max 1 (pyRound ((c2Risque.score_brut : ℚ) -
          c2Risque.score_brut * min (95/100)
            (((c2State.mesures_traitement.filter
                (fun m => c2Risque.mesures_associees.contains m.id)).map
              (fun m => m.efficacite)).sum))) ∧
        out.mesures_appliquees =
          (c2State.mesures_traitement.filter
            (fun m => c2Risque.mesures_associees.contains m.id)).map
            (fun m => m.id)) ∧
      s'.risques_residuels.countP (fun x => x.risque_id == "R1") = 1 ∧
      s'.risques_residuels =
        c2State.risques_residuels.eraseP (fun x => x.risque_id == "R1") ++ [out] ∧
      s'.risques = c2State.risques ∧
      s'.mesures_traitement = c2State.mesures_traitement :=
  C2_residual_risk c2State "R1" c2Risque (by with_unfolding_all rfl) (by decide)

/-! ## Claim C4 -/

/-- Python indexing fails exactly outside `[-len, len-1]`. -/
theorem pyGet_none {α : Type} (l : List α) (i : ℤ)
    (h : (l.length : ℤ) ≤ i ∨ i < -(l.length : ℤ)) :
    RiskCalculator.pyGet l i = none := by
  unfold RiskCalculator.pyGet
  rcases h with h | h
  · rw [if_pos (by omega)]
    exact List.get?_eq_none.mpr (by omega)
  · rw [if_neg (by omega), if_neg (by omega)]

/-- A successful Python index lookup returns a member of the list. -/
theorem pyGet_mem {α : Type} {l : List α} {i : ℤ} {x : α}
    (h : RiskCalculator.pyGet l i = some x) : x ∈ l := by
  unfold RiskCalculator.pyGet at h
  split_ifs at h <;> exact List.get?_mem h

/-- Counterexample to C4: `Workshop4.add_mesure_existante` accepts
efficacy `2 ∉ [0,1]` and appends the measure (no failure is possible:
the function performs no validation), and `Workshop5.add_risque` with
gravity `0 ∉ [1,4]` silently succeeds — Python's negative indexing wraps
`matrice[-1]` to the last row, appending a risk with gross score 2. -/
theorem C4_range_validation_counterexample :
    (Workshop4.add_mesure_existante Workshop4.init "Pare-feu" "Préventif"
        2 []).2.mesures_existantes.length = 1 ∧
    (Workshop4.add_mesure_existante Workshop4.init "Pare-feu" "Préventif"
        2 []).1.efficacite = 2 ∧
    (Workshop5.add_risque Workshop5.init "R1" "r" 0 1 "SS1").map
      (fun p => (p.1.score_brut, p.2.risques.length)) = some (2, 1) := by
  refine ⟨rfl, rfl, ?_⟩
  with_unfolding_all rfl

/-- C4 (amended): `Workshop1.add_mission` does fail, mutation-free, on an
out-of-range criticality; but `Workshop4.add_mesure_existante` performs
no efficacy validation and always appends; and `Workshop5.add_risque`
performs no explicit range check — it fails (IndexError, nothing
appended) only when gravity or likelihood falls outside `[-3,4]`, and
otherwise appends a risk, silently accepting values in `[-3,0]` through
Python's negative indexing. -/
theorem C4_range_validation_amended :
    (∀ (s : Workshop1.State) (nom description : String) (criticite : ℤ),
      ¬(1 ≤ criticite ∧ criticite ≤ 4) →
      Workshop1.add_mission s nom description criticite = none) ∧
    (∀ (s : Workshop4.State) (nom type_mesure : String) (efficacite : ℚ)
        (couverture : List String),
      (Workshop4.add_mesure_existante s nom type_mesure efficacite
          couverture).2.mesures_existantes =
        s.mesures_existantes ++
          [(Workshop4.add_mesure_existante s nom type_mesure efficacite
              couverture).1]) ∧
    (∀ (s : Workshop5.State) (rid nom : String) (g v : ℤ) (ref : String),
      ((g < -3 ∨ 4 < g ∨ v < -3 ∨ 4 < v) →
        Workshop5.add_risque s rid nom g v ref = none) ∧
      ((-3 ≤ g ∧ g ≤ 4 ∧ -3 ≤ v ∧ v ≤ 4) →
        ∃ x s', Workshop5.add_risque s rid nom g v ref = some (x, s') ∧
          s'.risques = s.risques ++ [x])) := by
  refine ⟨?_, ?_, ?_⟩
  · intro s nom description criticite h
    unfold Workshop1.add_mission
    rw [if_pos h]
  · intro s nom type_mesure efficacite couverture
    rfl
  · intro s rid nom g v ref
    constructor
    · intro h
      have hs : Workshop5.calculate_risk_score g v = none := by
        unfold Workshop5.calculate_risk_score
        by_cases hg : -3 ≤ g ∧ g ≤ 4
        · have hv : v < -3 ∨ 4 < v := by omega
          cases hrow : RiskCalculator.pyGet Workshop5.matrice (g - 1) with
          | none => rfl
          | some row =>
            have hlen : row.length = 4 := by
              have hmem := pyGet_mem hrow
              fin_cases hmem <;> rfl
            show RiskCalculator.pyGet row (v - 1) = none
            exact pyGet_none row (v - 1) (by rw [hlen]; push_cast; omega)
        · have hnone : RiskCalculator.pyGet Workshop5.matrice (g - 1) = none := by
            refine pyGet_none _ _ ?_
            show (4 : ℤ) ≤ g - 1 ∨ g - 1 < -4
            omega
          rw [hnone]
          rfl
      unfold Workshop5.add_risque
      rw [hs]
    · rintro ⟨hg1, hg2, hv1, hv2⟩
      have hsc : ∃ sc, Workshop5.calculate_risk_score g v = some sc := by
        interval_cases g <;> interval_cases v <;> exact ⟨_, rfl⟩
      obtain ⟨sc, hsc⟩ := hsc
      unfold Workshop5.add_risque
      rw [hsc]
      exact ⟨_, _, rfl, rfl⟩

/-- Witness for C4 (amended): the mission add fails at criticality 5, the
existing-measure add appends at efficacy 1.5, and `add_risque` fails at
gravity 5 but appends at gravity 0. -/
theorem C4_range_validation_witness :
    Workshop1.add_mission Workshop1.init "Mission" "d" 5 = none ∧
    (Workshop4.add_mesure_existante Workshop4.init "M" "Détectif"
        (3/2) []).2.mesures_existantes =
      Workshop4.init.mesures_existantes ++
        [(Workshop4.add_mesure_existante Workshop4.init "M" "Détectif"
            (3/2) []).1] ∧
    Workshop5.add_risque Workshop5.init "R9" "r" 5 1 "SS1" = none ∧
    (∃ x s', Workshop5.add_risque Workshop5.init "R9" "r" 0 1 "SS1" =
        some (x, s') ∧ s'.risques = Workshop5.init.risques ++ [x]) :=
  ⟨C4_range_validation_amended.1 Workshop1.init "Mission" "d" 5 (by omega),
   C4_range_validation_amended.2.1 Workshop4.init "M" "Détectif" (3/2) [],
   (C4_range_validation_amended.2.2 Workshop5.init "R9" "r" 5 1 "SS1").1
     (by omega),
   (C4_range_validation_amended.2.2 Workshop5.init "R9" "r" 0 1 "SS1").2
     (by omega)⟩

/-! ## Claim C3 -/

/-- Position of a status along the intended forward chain
`Non traité → Stratégie définie → Accepté`. -/
def statusRank (st : String) : ℕ :=
  if st = "Non traité" then 0
  else if st = "Stratégie définie" then 1
  else if st = "Accepté" then 2
  else 0

theorem statusRank_le_two (st : String) : statusRank st ≤ 2 := by
  unfold statusRank
  split_ifs <;> omega

/-- `calculate_risque_residuel` never touches the risk list. -/
theorem calculate_risque_residuel_risques (s : Workshop5.State) (rid : String)
    (out : Workshop5.RisqueResiduel) (s' : Workshop5.State)
    (h : Workshop5.calculate_risque_residuel s rid = some (out, s')) :
    s'.risques = s.risques ∧ s'.mesures_traitement = s.mesures_traitement := by
  unfold Workshop5.calculate_risque_residuel at h
  cases hf : s.risques.find? (fun x => x.id == rid) with
  | none => rw [hf] at h; exact absurd h (by simp)
  | some r =>
    rw [hf] at h
    simp only [Option.some_inj, Prod.mk.injEq] at h
    obtain ⟨-, h2⟩ := h
    subst h2
    exact ⟨rfl, rfl⟩

/-- Counterexample to C3: add a risk, accept it (status `"Accepté"`),
then re-define its treatment — the status reverts backward to
`"Stratégie définie"`. -/
theorem C3_status_counterexample :
    ((Workshop5.add_risque Workshop5.init "R1" "r" 2 2 "SS1").bind (fun p =>
      Workshop5.accept_risque p.2 "R1" "dir" "ok")).map
        (fun q => q.2.risques.map (fun r => r.statut)) = some ["Accepté"] ∧
    ((Workshop5.add_risque Workshop5.init "R1" "r" 2 2 "SS1").bind (fun p =>
      (Workshop5.accept_risque p.2 "R1" "dir" "ok").bind (fun q =>
        Workshop5.define_traitement q.2 "R1" "Atténuation" "j"))).map
        (fun d => d.2.risques.map (fun r => r.statut)) =
      some ["Stratégie définie"] := by
  constructor <;> with_unfolding_all rfl

/-- C3 (amended): under `add_risque`, `associate_mesure_to_risque`,
`calculate_risque_residuel` and `accept_risque` a risk's status only
moves forward along Untreated → StrategyDefined → Accepted; but
`define_traitement` unconditionally sets the target risk's status to
`"Stratégie définie"`, so on an Accepted risk it reverts the status
backward. -/
theorem C3_status_amended :
    (∀ (s : Workshop5.State) (rid opt j : String) (r : Workshop5.Risque),
      (opt = "Atténuation" ∨ opt = "Transfert" ∨ opt = "Évitement" ∨
        opt = "Acceptation") →
      s.risques.find? (fun x => x.id == rid) = some r →
      ∃ r' s', Workshop5.define_traitement s rid opt j = some (r', s') ∧
        r'.statut = "Stratégie définie" ∧
        s'.risques.find? (fun x => x.id == rid) = some r') ∧
    (∀ (s : Workshop5.State) (rid nom : String) (g v : ℤ) (ref : String)
        (x : Workshop5.Risque) (s' : Workshop5.State),
      Workshop5.add_risque s rid nom g v ref = some (x, s') →
      x.statut = "Non traité" ∧
      ∀ (k : ℕ) (r : Workshop5.Risque),
        s.risques.get? k = some r → s'.risques.get? k = some r) ∧
    (∀ (s : Workshop5.State) (rid mid : String) (k : ℕ)
        (r : Workshop5.Risque),
      s.risques.get? k = some r →
      ∃ r', (Workshop5.associate_mesure_to_risque s rid mid).2.risques.get? k =
          some r' ∧ r'.statut = r.statut) ∧
    (∀ (s : Workshop5.State) (rid : String) (out : Workshop5.RisqueResiduel)
        (s' : Workshop5.State),
      Workshop5.calculate_risque_residuel s rid = some (out, s') →
      s'.risques = s.risques) ∧
    (∀ (s : Workshop5.State) (rid acceptant j : String)
        (acc : Workshop5.Acceptation) (s' : Workshop5.State),
      Workshop5.accept_risque s rid acceptant j = some (acc, s') →
      ∀ (k : ℕ) (r : Workshop5.Risque), s.risques.get? k = some r →
        ∃ r', s'.risques.get? k = some r' ∧
          statusRank r.statut ≤ statusRank r'.statut) := by
  refine ⟨?_, ?_, ?_, ?_, ?_⟩
  · intro s rid opt j r hv hf
    unfold Workshop5.define_traitement
    rw [if_neg (not_not_intro hv), hf]
    refine ⟨_, _, rfl, rfl, ?_⟩
    rw [find?_updateFirst (fun x : Workshop5.Risque => x.id == rid)
      (fun x : Workshop5.Risque =>
        { x with option_traitement := some opt,
                 justification := some j,
                 statut := "Stratégie définie" })
      (fun x => rfl), hf]
    rfl
  · intro s rid nom g v ref x s' h
    unfold Workshop5.add_risque at h
    cases hsc : Workshop5.calculate_risk_score g v with
    | none => rw [hsc] at h; exact absurd h (by simp)
    | some sc =>
      rw [hsc] at h
      simp only [Option.some_inj, Prod.mk.injEq] at h
      obtain ⟨h1, h2⟩ := h
      subst h1; subst h2
      refine ⟨rfl, ?_⟩
      intro k r hk
      have hklt : k < s.risques.length := by
        by_contra hge
        rw [List.get?_eq_none.mpr (by omega)] at hk
        exact absurd hk (by simp)
      show (s.risques ++ _).get? k = some r
      rw [List.get?_eq_getElem?, List.getElem?_append_left hklt,
        ← List.get?_eq_getElem?]
      exact hk
  · intro s rid mid k r hk
    unfold Workshop5.associate_mesure_to_risque
    cases hf1 : s.risques.find? (fun x => x.id == rid) with
    | none =>
      cases hf2 : s.mesures_traitement.find? (fun m => m.id == mid) with
      | none => exact ⟨r, hk, rfl⟩
      | some mm => exact ⟨r, hk, rfl⟩
    | some rr =>
      cases hf2 : s.mesures_traitement.find? (fun m => m.id == mid) with
      | none => exact ⟨r, hk, rfl⟩
      | some mm =>
        show ∃ r', (updateFirst (fun x => x.id == rid)
            (fun x => if mid ∈ x.mesures_associees then x
              else { x with mesures_associees := x.mesures_associees ++ [mid] })
            s.risques).get? k = some r' ∧ r'.statut = r.statut
        rcases get?_updateFirst (fun x : Workshop5.Risque => x.id == rid)
            (fun x : Workshop5.Risque =>
              if mid ∈ x.mesures_associees then x
              else { x with mesures_associees := x.mesures_associees ++ [mid] })
            s.risques k r hk with h | h
        · exact ⟨r, h, rfl⟩
        · refine ⟨_, h, ?_⟩
          show (if mid ∈ r.mesures_associees then r
            else { r with mesures_associees := r.mesures_associees ++ [mid] }).statut
              = r.statut
          split <;> rfl
  · intro s rid out s' h
    exact (calculate_risque_residuel_risques s rid out s' h).1
  · intro s rid acceptant j acc s' h k r hk
    unfold Workshop5.accept_risque at h
    cases hf : s.risques.find? (fun x => x.id == rid) with
    | none => rw [hf] at h; exact absurd h (by simp)
    | some rr =>
      rw [hf] at h
      cases hc : Workshop5.calculate_risque_residuel s rid with
      | none => rw [hc] at h; exact absurd h (by simp)
      | some p =>
        rw [hc] at h
        simp only [Option.some_inj, Prod.mk.injEq] at h
        obtain ⟨-, h2⟩ := h
        subst h2
        have hris : p.2.risques = s.risques :=
          (calculate_risque_residuel_risques s rid p.1 p.2 (by rw [hc])).1
        show ∃ r', (updateFirst (fun x => x.id == rid)
          (fun x => { x with statut := "Accepté" }) p.2.risques).get? k =
            some r' ∧ statusRank r.statut ≤ statusRank r'.statut
        rw [hris]
        rcases get?_updateFirst (fun x : Workshop5.Risque => x.id == rid)
            (fun x : Workshop5.Risque => { x with statut := "Accepté" })
            s.risques k r hk with h | h
        · exact ⟨r, h, le_refl _⟩
        · refine ⟨_, h, ?_⟩
          show statusRank r.statut ≤ statusRank "Accepté"
          have : statusRank "Accepté" = 2 := by decide
          rw [this]
          exact statusRank_le_two _

/-- Concrete already-accepted risk for the C3 witness. -/
def c3Risque : Workshop5.Risque :=
  { id := "R1", nom := "r", gravite := 2, vraisemblance := 2, score_brut := 2,
    niveau_brut := "Acceptable", scenario_reference := "SS1",
    statut := "Accepté", option_traitement := some "Acceptation",
    justification := some "ok", mesures_associees := [] }

/-- Concrete Workshop5 state for the C3 witness. -/
def c3State : Workshop5.State :=
  { risques := [c3Risque], mesures_traitement := [], risques_residuels := [],
    risques_acceptes := [], budget_estime := 0 }

/-- Witness for C3 (amended): re-defining treatment on the accepted risk
yields status `"Stratégie définie"`, while association keeps the status
unchanged. -/
theorem C3_status_amended_witness :
    (∃ r' s', Workshop5.define_traitement c3State "R1" "Atténuation" "j" =
        some (r', s') ∧
      r'.statut = "Stratégie définie" ∧
      s'.risques.find? (fun x => x.id == "R1") = some r') ∧
    (∃ r', (Workshop5.associate_mesure_to_risque
        c3State "R1" "M1").2.risques.get? 0 = some r' ∧
      r'.statut = c3Risque.statut) :=
  ⟨C3_status_amended.1 c3State "R1" "Atténuation" "j" c3Risque (Or.inl rfl)
      (by with_unfolding_all rfl),
   C3_status_amended.2.2.1 c3State "R1" "M1" 0 c3Risque
      (by with_unfolding_all rfl)⟩

/-! ## Claim C5 -/

/-- The generation loop produces exactly one scenario per mapping entry
whose two ids resolve. -/
theorem buildStep_foldl_length (s : Workshop2.State) :
    ∀ (l : List Workshop2.Relation)
      (acc : List Workshop2.ScenarioStrategique),
      (l.foldl (Workshop2.buildStep s) acc).length =
        acc.length + l.countP (fun rel =>
          (s.sources_risque.find? (fun x => x.id == rel.sr_id)).isSome &&
          (s.objectifs_vises.find? (fun o => o.id == rel.ov_id)).isSome)
  | [], acc => by simp
  | rel :: rest, acc => by
    rw [List.foldl_cons,
      buildStep_foldl_length s rest (Workshop2.buildStep s acc rel),
      List.countP_cons]
    have hstep : (Workshop2.buildStep s acc rel).length =
        acc.length + (if ((s.sources_risque.find?
              (fun x => x.id == rel.sr_id)).isSome &&
            (s.objectifs_vises.find?
              (fun o => o.id == rel.ov_id)).isSome) = true
          then 1 else 0) := by
      unfold Workshop2.buildStep
      cases hsr : s.sources_risque.find? (fun x => x.id == rel.sr_id) with
      | none => simp [hsr]
      | some sr =>
        cases hov : s.objectifs_vises.find? (fun o => o.id == rel.ov_id) with
        | none => simp [hov]
        | some ov => simp [hov]
    omega

/-- C5: `generate_scenarios_strategiques` discards the previous scenario
list, rebuilds one scenario per mapping entry whose both ids resolve, and
returns the rebuilt list sorted non-increasingly by gravity with ties
kept in mapping insertion order (the filter at each gravity equals the
filter of the in-order rebuilt list). -/
theorem C5_generate_scenarios (s : Workshop2.State) :
    ((Workshop2.generate_scenarios_strategiques s).2 =
      { s with scenarios_strategiques :=
          (Workshop2.generate_scenarios_strategiques s).1 }) ∧
    (Workshop2.generate_scenarios_strategiques s).1.length =
      s.cartographie_sr_ov.countP (fun rel =>
        (s.sources_risque.find? (fun x => x.id == rel.sr_id)).isSome &&
        (s.objectifs_vises.find? (fun o => o.id == rel.ov_id)).isSome) ∧
    (Workshop2.generate_scenarios_strategiques s).1.Pairwise
      (fun a b => b.gravite ≤ a.gravite) ∧
    (∀ g : ℤ, (Workshop2.generate_scenarios_strategiques s).1.filter
        (fun sc => sc.gravite == g) =
      (Workshop2.buildScenarios s).filter (fun sc => sc.gravite == g)) ∧
    (∀ prev : List Workshop2.ScenarioStrategique,
      Workshop2.generate_scenarios_strategiques
        { s with scenarios_strategiques := prev } =
      Workshop2.generate_scenarios_strategiques s) := by
  refine ⟨rfl, ?_, ?_, ?_, fun prev => rfl⟩
  · show (stableSortDesc (fun sc => sc.gravite)
      (Workshop2.buildScenarios s)).length = _
    rw [stableSortDesc_length]
    simpa using buildStep_foldl_length s s.cartographie_sr_ov []
  · exact stableSortDesc_pairwise _ _
  · intro g
    exact stableSortDesc_filter (fun sc => sc.gravite)
      (Workshop2.buildScenarios s) g

/-! ## Claim C10 -/

/-- The bidirectional link invariant of Workshop5: a measure id appears in
a risk's `mesures_associees` exactly when that risk's id appears in the
measure's `risques_couverts`. -/
@[reducible] def LinksInv (s : Workshop5.State) : Prop :=
  ∀ r ∈ s.risques, ∀ m ∈ s.mesures_traitement,
    (m.id ∈ r.mesures_associees ↔ r.id ∈ m.risques_couverts)

/-- `associate_mesure_to_risque` on an unknown risk or measure id returns
`False` and leaves the state untouched. -/
theorem associate_not_found (s : Workshop5.State) (rid mid : String)
    (h : s.risques.find? (fun r => r.id == rid) = none ∨
      s.mesures_traitement.find? (fun m => m.id == mid) = none) :
    Workshop5.associate_mesure_to_risque s rid mid = (false, s) := by
  unfold Workshop5.associate_mesure_to_risque
  rcases h with h | h
  · rw [h]
  · cases hf : s.risques.find? (fun r => r.id == rid) with
    | none => rfl
    | some rr => rw [h]

/-- `associate_mesure_to_risque` when both entities resolve: `True`, with
the two link lists of the first matches extended. -/
theorem associate_found (s : Workshop5.State) (rid mid : String)
    (r : Workshop5.Risque) (m : Workshop5.MesureTraitement)
    (hf1 : s.risques.find? (fun x => x.id == rid) = some r)
    (hf2 : s.mesures_traitement.find? (fun x => x.id == mid) = some m) :
    Workshop5.associate_mesure_to_risque s rid mid =
      (true, { s with
        risques := updateFirst (fun x => x.id == rid)
          (fun x => if mid ∈ x.mesures_associees then x
            else { x with mesures_associees := x.mesures_associees ++ [mid] })
          s.risques,
        mesures_traitement := updateFirst (fun x => x.id == mid)
          (fun x => if rid ∈ x.risques_couverts then x
            else { x with risques_couverts := x.risques_couverts ++ [rid] })
          s.mesures_traitement }) := by
  unfold Workshop5.associate_mesure_to_risque
  rw [hf1, hf2]

theorem addLink_id (mid : String) (x : Workshop5.Risque) :
    (if mid ∈ x.mesures_associees then x
      else { x with mesures_associees := x.mesures_associees ++ [mid] }).id =
      x.id := by
  split <;> rfl

theorem addCover_id (rid : String) (x : Workshop5.MesureTraitement) :
    (if rid ∈ x.risques_couverts then x
      else { x with risques_couverts := x.risques_couverts ++ [rid] }).id =
      x.id := by
  split <;> rfl

theorem mem_addLink (mid : String) (x : Workshop5.Risque) :
    mid ∈ (if mid ∈ x.mesures_associees then x
      else { x with mesures_associees :=
        x.mesures_associees ++ [mid] }).mesures_associees := by
  by_cases h : mid ∈ x.mesures_associees
  · rw [if_pos h]; exact h
  · rw [if_neg h]; simp

theorem mem_addCover (rid : String) (x : Workshop5.MesureTraitement) :
    rid ∈ (if rid ∈ x.risques_couverts then x
      else { x with risques_couverts :=
        x.risques_couverts ++ [rid] }).risques_couverts := by
  by_cases h : rid ∈ x.risques_couverts
  · rw [if_pos h]; exact h
  · rw [if_neg h]; simp

theorem mem_addLink_iff (mid y : String) (x : Workshop5.Risque)
    (hne : y ≠ mid) :
    (y ∈ (if mid ∈ x.mesures_associees then x
      else { x with mesures_associees :=
        x.mesures_associees ++ [mid] }).mesures_associees) ↔
      y ∈ x.mesures_associees := by
  split
  · exact Iff.rfl
  · simp [hne]

theorem mem_addCover_iff (rid y : String) (x : Workshop5.MesureTraitement)
    (hne : y ≠ rid) :
    (y ∈ (if rid ∈ x.risques_couverts then x
      else { x with risques_couverts :=
        x.risques_couverts ++ [rid] }).risques_couverts) ↔
      y ∈ x.risques_couverts := by
  split
  · exact Iff.rfl
  · simp [hne]

theorem addLink_idem (mid : String) (x : Workshop5.Risque) :
    (fun x : Workshop5.Risque => if mid ∈ x.mesures_associees then x
      else { x with mesures_associees := x.mesures_associees ++ [mid] })
    ((fun x : Workshop5.Risque => if mid ∈ x.mesures_associees then x
      else { x with mesures_associees := x.mesures_associees ++ [mid] }) x) =
    (fun x : Workshop5.Risque => if mid ∈ x.mesures_associees then x
      else { x with mesures_associees := x.mesures_associees ++ [mid] }) x := by
  by_cases h : mid ∈ x.mesures_associees
  · simp [h]
  · simp only [if_neg h]
    rw [if_pos (by simp)]

theorem addCover_idem (rid : String) (x : Workshop5.MesureTraitement) :
    (fun x : Workshop5.MesureTraitement => if rid ∈ x.risques_couverts then x
      else { x with risques_couverts := x.risques_couverts ++ [rid] })
    ((fun x : Workshop5.MesureTraitement => if rid ∈ x.risques_couverts then x
      else { x with risques_couverts := x.risques_couverts ++ [rid] }) x) =
    (fun x : Workshop5.MesureTraitement => if rid ∈ x.risques_couverts then x
      else { x with risques_couverts := x.risques_couverts ++ [rid] }) x := by
  by_cases h : rid ∈ x.risques_couverts
  · simp [h]
  · simp only [if_neg h]
    rw [if_pos (by simp)]

/-- The duplicate risk produced by the second `add_risque "R1"` call of
the C10 counterexample. -/
def c10Risque : Workshop5.Risque :=
  { id := "R1", nom := "r", gravite := 1, vraisemblance := 1, score_brut := 1,
    niveau_brut := "Faible", scenario_reference := "S",
    statut := "Non traité", option_traitement := none, justification := none,
    mesures_associees := [] }

/-- The measure of the C10 counterexample. -/
def c10Mesure : Workshop5.MesureTraitement :=
  { id := "M1", nom := "m", type := "Préventif", description := "d",
    cout_estime := 0, efficacite := 1/2, delai_mise_en_oeuvre := 10,
    responsable := "RSSI", statut := "Planifiée", risques_couverts := [] }

/-- The reachable state of the C10 counterexample: two risks sharing the
id `"R1"` (`add_risque` never rejects duplicates) and one measure. -/
def c10State : Workshop5.State :=
  { risques := [c10Risque, c10Risque], mesures_traitement := [c10Mesure],
    risques_residuels := [], risques_acceptes := [], budget_estime := 0 }

/-- Counterexample to C10: from the empty workshop, `add_risque "R1"`
twice then `add_mesure_traitement` reaches `c10State`, which satisfies
the link invariant; `associate_mesure_to_risque "R1" "M1"` returns `True`
but links only the first duplicate, leaving a state where `"R1"` is in
the measure's `risques_couverts` while the second risk with id `"R1"`
does not list `"M1"` — the invariant is broken. -/
theorem C10_links_counterexample :
    ((Workshop5.add_risque Workshop5.init "R1" "r" 1 1 "S").bind (fun p =>
      (Workshop5.add_risque p.2 "R1" "r" 1 1 "S").bind (fun q =>
        (Workshop5.add_mesure_traitement q.2 "m" "Préventif" "d" 0 (1/2) 10
          "RSSI").map (fun t => t.2)))) = some c10State ∧
    LinksInv c10State ∧
    (Workshop5.associate_mesure_to_risque c10State "R1" "M1").1 = true ∧
    ¬ LinksInv (Workshop5.associate_mesure_to_risque c10State "R1" "M1").2 := by
  refine ⟨by with_unfolding_all rfl, by decide, rfl, ?_⟩
  exact of_decide_eq_false (by with_unfolding_all rfl)

/-- C10 (amended): `associate_mesure_to_risque` returns `False` and
changes nothing when either id is unknown; returns `True` when both
exist; is idempotent on the state; and — provided the risks' ids are
pairwise distinct and the measures' ids are pairwise distinct — it
preserves the bidirectional link invariant. -/
theorem C10_links_amended :
    (∀ (s : Workshop5.State) (rid mid : String),
      (s.risques.find? (fun r => r.id == rid) = none ∨
        s.mesures_traitement.find? (fun m => m.id == mid) = none) →
      Workshop5.associate_mesure_to_risque s rid mid = (false, s)) ∧
    (∀ (s : Workshop5.State) (rid mid : String) (r : Workshop5.Risque)
        (m : Workshop5.MesureTraitement),
      s.risques.find? (fun x => x.id == rid) = some r →
      s.mesures_traitement.find? (fun x => x.id == mid) = some m →
      (Workshop5.associate_mesure_to_risque s rid mid).1 = true) ∧
    (∀ (s : Workshop5.State) (rid mid : String),
      (Workshop5.associate_mesure_to_risque
        (Workshop5.associate_mesure_to_risque s rid mid).2 rid mid).2 =
      (Workshop5.associate_mesure_to_risque s rid mid).2) ∧
    (∀ (s : Workshop5.State) (rid mid : String),
      (s.risques.map (fun r => r.id)).Nodup →
      (s.mesures_traitement.map (fun m => m.id)).Nodup →
      LinksInv s →
      LinksInv (Workshop5.associate_mesure_to_risque s rid mid).2) := by
  have hpf : ∀ (rid mid : String) (x : Workshop5.Risque),
      (((fun x : Workshop5.Risque => if mid ∈ x.mesures_associees then x
        else { x with mesures_associees := x.mesures_associees ++ [mid] }) x).id
          == rid) = (x.id == rid) := by
    intro rid mid x
    rw [addLink_id]
  have hqg : ∀ (rid mid : String) (x : Workshop5.MesureTraitement),
      (((fun x : Workshop5.MesureTraitement => if rid ∈ x.risques_couverts then x
        else { x with risques_couverts := x.risques_couverts ++ [rid] }) x).id
          == mid) = (x.id == mid) := by
    intro rid mid x
    rw [addCover_id]
  refine ⟨fun s rid mid h => associate_not_found s rid mid h, ?_, ?_, ?_⟩
  · intro s rid mid r m hf1 hf2
    rw [associate_found s rid mid r m hf1 hf2]
  · intro s rid mid
    by_cases hf1 : ∃ r, s.risques.find? (fun x => x.id == rid) = some r
    · by_cases hf2 : ∃ m, s.mesures_traitement.find? (fun x => x.id == mid) = some m
      · obtain ⟨r, hf1⟩ := hf1
        obtain ⟨m, hf2⟩ := hf2
        rw [associate_found s rid mid r m hf1 hf2]
        have hf1' : (updateFirst (fun x : Workshop5.Risque => x.id == rid)
            (fun x => if mid ∈ x.mesures_associees then x
              else { x with mesures_associees := x.mesures_associees ++ [mid] })
            s.risques).find? (fun x => x.id == rid) = some
              (if mid ∈ r.mesures_associees then r
                else { r with mesures_associees := r.mesures_associees ++ [mid] }) := by
          rw [find?_updateFirst _ _ (hpf rid mid), hf1]
          rfl
        have hf2' : (updateFirst (fun x : Workshop5.MesureTraitement => x.id == mid)
            (fun x => if rid ∈ x.risques_couverts then x
              else { x with risques_couverts := x.risques_couverts ++ [rid] })
            s.mesures_traitement).find? (fun x => x.id == mid) = some
              (if rid ∈ m.risques_couverts then m
                else { m with risques_couverts := m.risques_couverts ++ [rid] }) := by
          rw [find?_updateFirst _ _ (hqg rid mid), hf2]
          rfl
        rw [associate_found _ rid mid _ _ hf1' hf2']
        dsimp only
        rw [updateFirst_idem _ _ (hpf rid mid) (fun x _ => addLink_idem mid x),
          updateFirst_idem _ _ (hqg rid mid) (fun x _ => addCover_idem rid x)]
      · push_neg at hf2
        have h2 : s.mesures_traitement.find? (fun x => x.id == mid) = none :=
          Option.eq_none_iff_forall_not_mem.mpr (fun m hm => hf2 m hm)
        rw [associate_not_found s rid mid (Or.inr h2),
          associate_not_found s rid mid (Or.inr h2)]
    · push_neg at hf1
      have h1 : s.risques.find? (fun x => x.id == rid) = none :=
        Option.eq_none_iff_forall_not_mem.mpr (fun r hr => hf1 r hr)
      rw [associate_not_found s rid mid (Or.inl h1),
        associate_not_found s rid mid (Or.inl h1)]
  · intro s rid mid hnd1 hnd2 hInv
    by_cases hf1 : ∃ r, s.risques.find? (fun x => x.id == rid) = some r
    · by_cases hf2 : ∃ m, s.mesures_traitement.find? (fun x => x.id == mid) = some m
      · obtain ⟨r0, hf1⟩ := hf1
        obtain ⟨m0, hf2⟩ := hf2
        rw [associate_found s rid mid r0 m0 hf1 hf2]
        have hpw1 : s.risques.Pairwise
            (fun a b => (a.id == rid) = true → (b.id == rid) = true → False) := by
          have h := (List.pairwise_map.mp hnd1)
          exact h.imp (fun {a b} hne ha hb => by
            apply hne
            rw [beq_iff_eq] at ha hb
            rw [ha, hb])
        have hpw2 : s.mesures_traitement.Pairwise
            (fun a b => (a.id == mid) = true → (b.id == mid) = true → False) := by
          have h := (List.pairwise_map.mp hnd2)
          exact h.imp (fun {a b} hne ha hb => by
            apply hne
            rw [beq_iff_eq] at ha hb
            rw [ha, hb])
        intro r' hr' m' hm'
        rw [updateFirst_eq_map _ _ s.risques hpw1] at hr'
        rw [updateFirst_eq_map _ _ s.mesures_traitement hpw2] at hm'
        obtain ⟨r, hr, rfl⟩ := List.mem_map.mp hr'
        obtain ⟨m, hm, rfl⟩ := List.mem_map.mp hm'
        by_cases hpr : (r.id == rid) = true
        · by_cases hqm : (m.id == mid) = true
          · rw [if_pos hpr, if_pos hqm, addLink_id, addCover_id]
            refine iff_of_true ?_ ?_
            · rw [beq_iff_eq.mp hqm]
              exact mem_addLink mid r
            · rw [beq_iff_eq.mp hpr]
              exact mem_addCover rid m
          · rw [if_pos hpr, if_neg hqm, addLink_id]
            have hne : m.id ≠ mid := by simpa using hqm
            rw [mem_addLink_iff mid m.id r hne]
            exact hInv r hr m hm
        · by_cases hqm : (m.id == mid) = true
          · rw [if_neg hpr, if_pos hqm, addCover_id]
            have hne : r.id ≠ rid := by simpa using hpr
            rw [mem_addCover_iff rid r.id m hne]
            exact hInv r hr m hm
          · rw [if_neg hpr, if_neg hqm]
            exact hInv r hr m hm
      · push_neg at hf2
        have h2 : s.mesures_traitement.find? (fun x => x.id == mid) = none :=
          Option.eq_none_iff_forall_not_mem.mpr (fun m hm => hf2 m hm)
        rw [associate_not_found s rid mid (Or.inr h2)]
        exact hInv
    · push_neg at hf1
      have h1 : s.risques.find? (fun x => x.id == rid) = none :=
        Option.eq_none_iff_forall_not_mem.mpr (fun r hr => hf1 r hr)
      rw [associate_not_found s rid mid (Or.inl h1)]
      exact hInv

/-- Well-formed one-risk one-measure state for the C10 witness. -/
def c10GoodState : Workshop5.State :=
  { risques := [c10Risque], mesures_traitement := [c10Mesure],
    risques_residuels := [], risques_acceptes := [], budget_estime := 0 }

/-- Witness for C10 (amended) on the empty state and on a well-formed
one-risk one-measure state. -/
theorem C10_links_amended_witness :
    Workshop5.associate_mesure_to_risque Workshop5.init "R1" "M1" =
      (false, Workshop5.init) ∧
    (Workshop5.associate_mesure_to_risque c10GoodState "R1" "M1").1 = true ∧
    (Workshop5.associate_mesure_to_risque
      (Workshop5.associate_mesure_to_risque c10GoodState "R1" "M1").2
        "R1" "M1").2 =
      (Workshop5.associate_mesure_to_risque c10GoodState "R1" "M1").2 ∧
    LinksInv (Workshop5.associate_mesure_to_risque c10GoodState "R1" "M1").2 :=
  ⟨C10_links_amended.1 Workshop5.init "R1" "M1" (Or.inl rfl),
   C10_links_amended.2.1 c10GoodState "R1" "M1" c10Risque c10Mesure
     (by with_unfolding_all rfl) (by with_unfolding_all rfl),
   C10_links_amended.2.2.1 c10GoodState "R1" "M1",
   C10_links_amended.2.2.2 c10GoodState "R1" "M1" (by decide) (by decide)
     (by decide)⟩

/-! ## Claim C8 -/

theorem get?_append_self {α : Type} (A B : List α) :
    (A ++ B).get? A.length = B.get? 0 := by
  induction A with
  | nil => rfl
  | cons x xs ih => simpa using ih

theorem get?_append_of_len {α : Type} (A B : List α) (k : ℕ)
    (h : A.length = k) : (A ++ B).get? k = B.get? 0 := by
  subst h
  exact get?_append_self A B

theorem get?_drop_zero {α : Type} : ∀ (i : ℕ) (l : List α),
    (l.drop i).get? 0 = l.get? i
  | 0, _ => rfl
  | _ + 1, [] => rfl
  | i + 1, _ :: xs => get?_drop_zero i xs

theorem find?_append_of_forall_neg {α : Type} (p : α → Bool) :
    ∀ (A B : List α), (∀ x ∈ A, p x = false) →
      (A ++ B).find? p = B.find? p
  | [], _, _ => rfl
  | x :: xs, B, h => by
    rw [List.cons_append,
      List.find?_cons_of_neg _ (by simp [h x (List.mem_cons_self x xs)]),
      find?_append_of_forall_neg p xs B
        (fun a ha => h a (List.mem_cons_of_mem x ha))]

theorem updateFirst_append_of_forall_neg {α : Type} (p : α → Bool)
    (f : α → α) : ∀ (A B : List α), (∀ x ∈ A, p x = false) →
      updateFirst p f (A ++ B) = A ++ updateFirst p f B
  | [], _, _ => rfl
  | x :: xs, B, h => by
    rw [List.cons_append, updateFirst,
      if_neg (by simp [h x (List.mem_cons_self x xs)]),
      updateFirst_append_of_forall_neg p f xs B
        (fun a ha => h a (List.mem_cons_of_mem x ha)), List.cons_append]

/-- Under a duplicate-free key map, an element of `take i` and the
element at position `i` have different keys. -/
theorem map_nodup_take_ne {α β : Type} (f : α → β) (l : List α)
    (h : (l.map f).Nodup) (i : ℕ) (x y : α)
    (hx : x ∈ l.take i) (hy : l.get? i = some y) : ¬ f x = f y := by
  intro he
  have hsplit : l.map f = (l.take i).map f ++ (l.drop i).map f := by
    rw [← List.map_append, List.take_append_drop]
  rw [hsplit] at h
  obtain ⟨-, -, hdisj⟩ := List.nodup_append.mp h
  have hy' : l[i]? = some y := by rw [← List.get?_eq_getElem?]; exact hy
  obtain ⟨hi, hyy⟩ := List.getElem?_eq_some.mp hy'
  have hdropc : l.drop i = y :: l.drop (i + 1) := by
    rw [List.drop_eq_getElem_cons hi, hyy]
  refine hdisj (List.mem_map_of_mem f hx) ?_
  rw [hdropc, List.map_cons, he]
  exact List.mem_cons_self _ _

/-- The scenario likelihood `calculate_vraisemblance_scenario` would
store: unchanged when the scenario references no existing action,
otherwise the rounded mean of the referenced actions' likelihoods. -/
def lazyVraisemblance (s : Workshop4.State)
    (sc : Workshop4.ScenarioOperationnel) : ℤ :=
  if (s.actions_elementaires.filter
      (fun a => sc.actions_elementaires.contains a.id)).isEmpty then
    sc.vraisemblance
  else
    pyRound ((((s.actions_elementaires.filter
        (fun a => sc.actions_elementaires.contains a.id)).map
      (fun a => a.vraisemblance_action)).sum : ℤ) /
      ((s.actions_elementaires.filter
        (fun a => sc.actions_elementaires.contains a.id)).length : ℚ))

/-- The lazy per-scenario effect of `synthetize_risks` on the stored
likelihood: recompute only when the cached value is `0`. -/
def lazyUpdate (s : Workshop4.State)
    (sc : Workshop4.ScenarioOperationnel) : Workshop4.ScenarioOperationnel :=
  if sc.vraisemblance = 0 then
    { sc with vraisemblance := lazyVraisemblance s sc }
  else sc

theorem lazyUpdate_id (s : Workshop4.State)
    (sc : Workshop4.ScenarioOperationnel) : (lazyUpdate s sc).id = sc.id := by
  unfold lazyUpdate
  split <;> rfl

/-- Predicate used by the scenario lookup of
`calculate_vraisemblance_scenario`. -/
def w4IdEq (x : String) (so : Workshop4.ScenarioOperationnel) : Bool :=
  so.id == x

/-- The in-place likelihood write of `calculate_vraisemblance_scenario`. -/
def w4SetV (v : ℤ) (so : Workshop4.ScenarioOperationnel) :
    Workshop4.ScenarioOperationnel :=
  { so with vraisemblance := v }

/-- Net effect of the `synthetize_risks` loop on the scenario list: every
scenario whose cached likelihood is `0` gets it recomputed from the (loop
invariant) action list; every other scenario is untouched. -/
theorem synthLoop_scenarios (s : Workshop4.State) (gb : ℤ)
    (hnd : (s.scenarios_operationnels.map (fun so => so.id)).Nodup) :
    ∀ (n i : ℕ) (t : Workshop4.State) (acc : List Workshop4.RisqueSynthese),
      i + n = s.scenarios_operationnels.length →
      t.actions_elementaires = s.actions_elementaires →
      t.scenarios_operationnels =
        (s.scenarios_operationnels.take i).map (lazyUpdate s) ++
          s.scenarios_operationnels.drop i →
      (Workshop4.synthLoop gb (List.range' i n) t
          acc).1.scenarios_operationnels =
        s.scenarios_operationnels.map (lazyUpdate s)
  | 0, i, t, acc, hlen, hact, hscen => by
    have hi : i = s.scenarios_operationnels.length := by omega
    show t.scenarios_operationnels = _
    rw [hscen, hi, List.drop_length, List.append_nil, List.take_length]
  | n + 1, i, t, acc, hlen, hact, hscen => by
    have hi : i < s.scenarios_operationnels.length := by omega
    obtain ⟨sc, hsc⟩ : ∃ sc, s.scenarios_operationnels.get? i = some sc := by
      rw [List.get?_eq_getElem?]
      exact ⟨_, List.getElem?_eq_some.mpr ⟨hi, rfl⟩⟩
    have hscElem : s.scenarios_operationnels[i]? = some sc := by
      rw [← List.get?_eq_getElem?]
      exact hsc
    have hlenA : ((s.scenarios_operationnels.take i).map
        (lazyUpdate s)).length = i := by
      rw [List.length_map, List.length_take]
      omega
    have hdropc : s.scenarios_operationnels.drop i =
        sc :: s.scenarios_operationnels.drop (i + 1) := by
      obtain ⟨h', heq⟩ := List.getElem?_eq_some.mp hscElem
      rw [List.drop_eq_getElem_cons h', heq]
    have htget : t.scenarios_operationnels.get? i = some sc := by
      rw [hscen, get?_append_of_len _ _ i hlenA, get?_drop_zero, hsc]
    have htake1 : (s.scenarios_operationnels.take (i + 1)).map (lazyUpdate s) =
        (s.scenarios_operationnels.take i).map (lazyUpdate s) ++
          [lazyUpdate s sc] := by
      rw [List.take_succ, hscElem, List.map_append]
      rfl
    have hA : ∀ x ∈ (s.scenarios_operationnels.take i).map (lazyUpdate s),
        ((fun so => so.id == sc.id) x) = false := by
      intro x hx
      obtain ⟨y, hy, rfl⟩ := List.mem_map.mp hx
      show ((lazyUpdate s y).id == sc.id) = false
      rw [lazyUpdate_id]
      exact beq_eq_false_iff_ne.mpr
        (map_nodup_take_ne (fun so => so.id) _ hnd i y sc hy hsc)
    rw [List.range'_succ]
    unfold Workshop4.synthLoop
    rw [htget]
    dsimp only
    by_cases hv : sc.vraisemblance = 0
    · rw [if_pos hv]
      have hfind : t.scenarios_operationnels.find?
          (fun so => so.id == sc.id) = some sc := by
        rw [hscen, find?_append_of_forall_neg _ _ _ hA, hdropc]
        exact List.find?_cons_of_pos _ (beq_self_eq_true sc.id)
      by_cases hemp : (s.actions_elementaires.filter
          (fun a => sc.actions_elementaires.contains a.id)).isEmpty = true
      · have hcalc : Workshop4.calculate_vraisemblance_scenario t sc.id =
            (0, t) := by
          unfold Workshop4.calculate_vraisemblance_scenario
          rw [hfind]
          dsimp only
          rw [hact, if_pos hemp]
        rw [hcalc]
        dsimp only
        rw [htget]
        dsimp only
        refine synthLoop_scenarios s gb hnd n (i + 1) t _ (by omega) hact ?_
        have hupd : lazyUpdate s sc = sc := by
          unfold lazyUpdate
          rw [if_pos hv]
          unfold lazyVraisemblance
          rw [if_pos hemp]
        rw [hscen, htake1, hdropc, hupd, List.append_assoc,
          List.singleton_append]
      · have hcalc : Workshop4.calculate_vraisemblance_scenario t sc.id =
            (lazyVraisemblance s sc,
             { t with
                scenarios_operationnels := updateFirst (w4IdEq sc.id)
                    (w4SetV (lazyVraisemblance s sc))
                    t.scenarios_operationnels }) := by
          unfold Workshop4.calculate_vraisemblance_scenario
          rw [hfind]
          dsimp only
          rw [hact, if_neg hemp]
          unfold lazyVraisemblance w4IdEq w4SetV
          rw [if_neg hemp]
        have hupd2 : updateFirst (w4IdEq sc.id)
            (w4SetV (lazyVraisemblance s sc)) t.scenarios_operationnels =
          (s.scenarios_operationnels.take i).map (lazyUpdate s) ++
            (w4SetV (lazyVraisemblance s sc) sc ::
              s.scenarios_operationnels.drop (i + 1)) := by
          have hA' : ∀ x ∈ (s.scenarios_operationnels.take i).map
              (lazyUpdate s), w4IdEq sc.id x = false := hA
          rw [hscen, updateFirst_append_of_forall_neg _ _ _ _ hA', hdropc,
            updateFirst]
          rw [if_pos (show w4IdEq sc.id sc = true from beq_self_eq_true sc.id)]
        rw [hcalc]
        dsimp only
        have hs1get : (updateFirst (w4IdEq sc.id)
            (w4SetV (lazyVraisemblance s sc))
            t.scenarios_operationnels).get? i =
              some (w4SetV (lazyVraisemblance s sc) sc) := by
          rw [hupd2, get?_append_of_len _ _ i hlenA]
          rfl
        rw [hs1get]
        dsimp only
        refine synthLoop_scenarios s gb hnd n (i + 1) _ _ (by omega) hact ?_
        show updateFirst (w4IdEq sc.id) (w4SetV (lazyVraisemblance s sc))
            t.scenarios_operationnels = _
        have hlu : lazyUpdate s sc = w4SetV (lazyVraisemblance s sc) sc := by
          unfold lazyUpdate w4SetV
          rw [if_pos hv]
        rw [hupd2, htake1, hlu, List.append_assoc, List.singleton_append]
    · rw [if_neg hv]
      rw [htget]
      dsimp only
      refine synthLoop_scenarios s gb hnd n (i + 1) t _ (by omega) hact ?_
      have hupd : lazyUpdate s sc = sc := by
        unfold lazyUpdate
        rw [if_neg hv]
      rw [hscen, htake1, hdropc, hupd, List.append_assoc,
        List.singleton_append]

/-- The elementary actions a scenario references (its `actions` local in
`calculate_vraisemblance_scenario`). -/
def refActions (s : Workshop4.State)
    (sc : Workshop4.ScenarioOperationnel) :
    List Workshop4.ActionElementaire :=
  s.actions_elementaires.filter
    (fun a => sc.actions_elementaires.contains a.id)

/-- C8: for a scenario referencing at least one existing action,
`calculate_vraisemblance_scenario` returns the rounded mean of the
referenced actions' likelihoods and writes it into that scenario's stored
field (other positions untouched); and `synthetize_risks` recomputes the
stored likelihood lazily, exactly for the scenarios whose stored value is
`0`. -/
theorem C8_scenario_likelihood :
    (∀ (s : Workshop4.State) (sid : String)
        (sc : Workshop4.ScenarioOperationnel),
      s.scenarios_operationnels.find? (fun so => so.id == sid) = some sc →
      refActions s sc ≠ [] →
      ∃ s', Workshop4.calculate_vraisemblance_scenario s sid =
          (pyRound ((((refActions s sc).map
              (fun a => a.vraisemblance_action)).sum : ℤ) /
            ((refActions s sc).length : ℚ)), s') ∧
        s'.scenarios_operationnels.find? (fun so => so.id == sid) =
          some { sc with vraisemblance := pyRound ((((refActions s sc).map
              (fun a => a.vraisemblance_action)).sum : ℤ) /
            ((refActions s sc).length : ℚ)) } ∧
        (∀ (k : ℕ) (other : Workshop4.ScenarioOperationnel),
          s.scenarios_operationnels.get? k = some other →
          (other.id == sid) = false →
          s'.scenarios_operationnels.get? k = some other)) ∧
    (∀ (s : Workshop4.State) (gravite_base : ℤ),
      (s.scenarios_operationnels.map (fun so => so.id)).Nodup →
      (Workshop4.synthetize_risks s gravite_base).2.scenarios_operationnels =
        s.scenarios_operationnels.map (lazyUpdate s)) := by
  constructor
  · intro s sid sc hfind hne
    have hemp : ¬ ((s.actions_elementaires.filter
        (fun a => sc.actions_elementaires.contains a.id)).isEmpty = true) := by
      rw [List.isEmpty_eq_true]
      exact hne
    unfold Workshop4.calculate_vraisemblance_scenario
    rw [hfind]
    dsimp only
    rw [if_neg hemp]
    refine ⟨_, rfl, ?_, ?_⟩
    · have hfu := find?_updateFirst
        (fun so : Workshop4.ScenarioOperationnel => so.id == sid)
        (fun so : Workshop4.ScenarioOperationnel =>
          { so with vraisemblance := pyRound ((((refActions s sc).map
              (fun a => a.vraisemblance_action)).sum : ℤ) /
            ((refActions s sc).length : ℚ)) })
        (fun x => rfl) s.scenarios_operationnels
      rw [hfind] at hfu
      exact hfu
    · intro k other hk hneq
      exact get?_updateFirst_of_not _ _ s.scenarios_operationnels k other
        hk hneq
  · intro s gravite_base hnd
    show (Workshop4.synthetize_risks s gravite_base).2.scenarios_operationnels
      = _
    unfold Workshop4.synthetize_risks
    dsimp only
    rw [List.range_eq_range']
    exact synthLoop_scenarios s gravite_base hnd
      s.scenarios_operationnels.length 0 s [] (by omega) rfl (by simp)

/-- The scenario of the C8 witness (stored likelihood 0, two referenced
actions with likelihoods 4 and 1). -/
def c8SO : Workshop4.ScenarioOperationnel :=
  { id := "SO1", scenario_strategique_ref := "SS1", nom := "x",
    description := "d", actions_elementaires := ["AE1", "AE2"],
    vraisemblance := 0 }

/-- First action of the C8 witness (likelihood 4). -/
def c8AE1 : Workshop4.ActionElementaire :=
  { id := "AE1", nom := "a", technique_mitre := "T1566", difficulte := 1,
    detectabilite := 1, vraisemblance_action := 4 }

/-- Second action of the C8 witness (likelihood 1). -/
def c8AE2 : Workshop4.ActionElementaire :=
  { id := "AE2", nom := "b", technique_mitre := "T1078", difficulte := 4,
    detectabilite := 4, vraisemblance_action := 1 }

/-- Concrete Workshop4 state for the C8 witness. -/
def c8State : Workshop4.State :=
  { scenarios_operationnels := [c8SO], actions_elementaires := [c8AE1, c8AE2],
    mesures_existantes := [], synthese_risques := [] }

/-- Witness for C8 at the concrete state above. -/
theorem C8_scenario_likelihood_witness :
    (∃ s', Workshop4.calculate_vraisemblance_scenario c8State "SO1" =
        (pyRound ((((refActions c8State c8SO).map
            (fun a => a.vraisemblance_action)).sum : ℤ) /
          ((refActions c8State c8SO).length : ℚ)), s') ∧
      s'.scenarios_operationnels.find? (fun so => so.id == "SO1") =
        some { c8SO with
          vraisemblance := pyRound ((((refActions c8State c8SO).map
              (fun a => a.vraisemblance_action)).sum : ℤ) /
            ((refActions c8State c8SO).length : ℚ)) } ∧
      (∀ (k : ℕ) (other : Workshop4.ScenarioOperationnel),
        c8State.scenarios_operationnels.get? k = some other →
        (other.id == "SO1") = false →
        s'.scenarios_operationnels.get? k = some other)) ∧
    (Workshop4.synthetize_risks c8State 2).2.scenarios_operationnels =
      c8State.scenarios_operationnels.map (lazyUpdate c8State) :=
  ⟨C8_scenario_likelihood.1 c8State "SO1" c8SO (by with_unfolding_all rfl)
      (by decide),
   C8_scenario_likelihood.2 c8State 2 (by decide)⟩
